import Mathlib

/-!
Shallow embedding of the Kinetic Notation gesture core
(`src/js/core/modeManager.js` clip manager section, `src/js/movement/physics.js`,
`src/js/utils/perlin.js`, `src/js/movement/naturalMotions.js`, and the
biomechanical model module), with theorems checking the natural-language
specification against the code.

JavaScript numbers are modelled as real numbers.  JavaScript `x || d`
defaulting on numbers (`0`, `undefined` and `null` are falsy) is modelled by
`jsNumOr` / `jsOptNumOr`; explicit `!= null` checks are modelled by
`Option.getD`.  Mutation is modelled by explicit state passing: each method
returns the updated record.
-/

namespace KineticNotation

noncomputable section

open Real

/-- JS truncating division remainder (`a % b`): `a - b * trunc (a / b)`. -/
def jsTrunc (x : ℝ) : ℤ := if 0 ≤ x then ⌊x⌋ else ⌈x⌉

/-- JS `%` operator on numbers. -/
def jsMod (a b : ℝ) : ℝ := a - b * (jsTrunc (a / b) : ℝ)

/-- JS `v || d` where `v` is a number (`0` is falsy). -/
def jsNumOr (v d : ℝ) : ℝ := if v = 0 then d else v

/-- JS `o && o.f || d` where the field access may be `undefined` and `0` is falsy. -/
def jsOptNumOr (v : Option ℝ) (d : ℝ) : ℝ :=
  match v with
  | none => d
  | some x => if x = 0 then d else x

/-- JS `Math.round` (round half toward positive infinity). -/
def jsRound (x : ℝ) : ℤ := ⌊x + 0.5⌋

-- ═══════════ Easing (`modeManager.js` lines 156-175) ═══════════

/-- Embeds `easeInOutCubic` from `modeManager.js`. -/
def easeInOutCubic (t : ℝ) : ℝ :=
  if t < 0.5 then 4 * t * t * t else 1 - (-2 * t + 2) ^ (3 : ℕ) / 2

/-- Embeds `easeOutElastic` from `modeManager.js`. -/
def easeOutElastic (t : ℝ) : ℝ :=
  if t = 0 ∨ t = 1 then t
  else (2 : ℝ) ^ (-10 * t) * Real.sin ((t - 0.1) * (2 * π) / 0.4) + 1

/-- Embeds `easeOutQuad` from `modeManager.js`. -/
def easeOutQuad (t : ℝ) : ℝ := 1 - (1 - t) * (1 - t)

/-- Embeds `easeInOutSine` from `modeManager.js`. -/
def easeInOutSine (t : ℝ) : ℝ := -(Real.cos (π * t) - 1) / 2

/-- Embeds `EASING_MAP` from `modeManager.js`. -/
def EASING_MAP (name : String) : Option (ℝ → ℝ) :=
  match name with
  | "cubic" => some easeInOutCubic
  | "elastic" => some easeOutElastic
  | "quad" => some easeOutQuad
  | "sine" => some easeInOutSine
  | _ => none

-- ═══════════ 2D simplex noise (`src/js/utils/perlin.js`) ═══════════

/-- Gradient table `GRAD` from `perlin.js`. -/
def GRAD : List (ℝ × ℝ) :=
  [(1, 1), (-1, 1), (1, -1), (-1, -1), (1, 0), (-1, 0), (0, 1), (0, -1)]

/-- Base permutation table `PERM_BASE` from `perlin.js`. -/
def PERM_BASE : List ℕ :=
  [151,160,137,91,90,15,131,13,201,95,96,53,194,233,7,225,
   140,36,103,30,69,142,8,99,37,240,21,10,23,190,6,148,
   247,120,234,75,0,26,197,62,94,252,219,203,117,35,11,32,
   57,177,33,88,237,149,56,87,174,20,125,136,171,168,68,175,
   74,165,71,134,139,48,27,166,77,146,158,231,83,111,229,122,
   60,211,133,230,220,105,92,41,55,46,245,40,244,102,143,54,
   65,25,63,161,1,216,80,73,209,76,132,187,208,89,18,169,
   200,196,135,130,116,188,159,86,164,100,109,198,173,186,3,64,
   52,217,226,250,124,123,5,202,38,147,118,126,255,82,85,212,
   207,206,59,227,47,16,58,17,182,189,28,42,223,183,170,213,
   119,248,152,2,44,154,163,70,221,153,101,155,167,43,172,9,
   129,22,39,253,19,98,108,110,79,113,224,232,178,185,112,104,
   218,246,97,228,251,34,242,193,238,210,144,12,191,179,162,241,
   81,51,145,235,249,14,239,107,49,192,214,31,181,199,106,157,
   184,84,204,176,115,121,50,45,127,4,150,254,138,236,205,93,
   222,114,67,29,24,72,243,141,128,195,78,66,215,61,156,180]

/-- The doubled permutation table `P` (`P[i] = P[i+256] = PERM_BASE[i]`). -/
def P (i : ℕ) : ℕ := PERM_BASE.getD (i % 256) 0

/-- Skew constant `F2 = 0.5 * (sqrt 3 - 1)` from `perlin.js`. -/
def F2 : ℝ := 0.5 * (Real.sqrt 3 - 1)

/-- Skew constant `G2 = (3 - sqrt 3) / 6` from `perlin.js`. -/
def G2 : ℝ := (3 - Real.sqrt 3) / 6

/-- Embeds `dot2` from `perlin.js`. -/
def dot2 (g : ℝ × ℝ) (x y : ℝ) : ℝ := g.1 * x + g.2 * y

/-- Embeds `noise2D` from `perlin.js` (Gustavson 2D simplex noise). -/
def noise2D (x y : ℝ) : ℝ :=
  let s := (x + y) * F2
  let i : ℤ := ⌊x + s⌋
  let j : ℤ := ⌊y + s⌋
  let t := ((i + j : ℤ) : ℝ) * G2
  let X0 := (i : ℝ) - t
  let Y0 := (j : ℝ) - t
  let x0 := x - X0
  let y0 := y - Y0
  let ij1 : ℕ × ℕ := if y0 < x0 then (1, 0) else (0, 1)
  let i1 := ij1.1
  let j1 := ij1.2
  let x1 := x0 - (i1 : ℝ) + G2
  let y1 := y0 - (j1 : ℝ) + G2
  let x2 := x0 - 1 + 2 * G2
  let y2 := y0 - 1 + 2 * G2
  let ii := (i % 256).toNat
  let jj := (j % 256).toNat
  let t0 := 0.5 - x0 * x0 - y0 * y0
  let n0 := if 0 ≤ t0 then
      (t0 * t0) * (t0 * t0) * dot2 (GRAD.getD (P (ii + P jj) % 8) (0, 0)) x0 y0
    else 0
  let t1 := 0.5 - x1 * x1 - y1 * y1
  let n1 := if 0 ≤ t1 then
      (t1 * t1) * (t1 * t1) * dot2 (GRAD.getD (P (ii + i1 + P (jj + j1)) % 8) (0, 0)) x1 y1
    else 0
  let t2 := 0.5 - x2 * x2 - y2 * y2
  let n2 := if 0 ≤ t2 then
      (t2 * t2) * (t2 * t2) * dot2 (GRAD.getD (P (ii + 1 + P (jj + 1)) % 8) (0, 0)) x2 y2
    else 0
  70 * (n0 + n1 + n2)

-- ═══════════ Physics modifiers (`src/js/movement/physics.js`) ═══════════

/-- A 2D position, as returned by the physics modifiers. -/
structure Pos2 where
  x : ℝ
  y : ℝ

/-- A physics profile record from `PHYSICS_PROFILES` in `physics.js`.
Fields not present on a given profile are never read by its `type` dispatch;
they are stored as `0` placeholders. -/
structure PhysicsProfile where
  type : String
  gravity : ℝ
  buoyancy : ℝ
  airResistance : ℝ
  flutterFreq : ℝ
  flutterAmp : ℝ
  terminalVelocity : ℝ
  tension : ℝ
  damping : ℝ
  frequency : ℝ
  pull : ℝ
  decay : ℝ
  drag : ℝ
  inertia : ℝ
  noiseScale : ℝ
  noiseAmp : ℝ

/-- Profile constructor with every motif parameter zeroed. -/
def mkProfile (ty : String) (nScale nAmp : ℝ) : PhysicsProfile :=
  ⟨ty, 0, 0, 0, 0, 0, 0, 0, 0, 0, 0, 0, 0, 0, nScale, nAmp⟩

/-- Embeds `PHYSICS_PROFILES` from `physics.js`. -/
def PHYSICS_PROFILES (vocab : String) : Option PhysicsProfile :=
  match vocab with
  | "whale" => some { mkProfile "gravity" 0.005 45 with gravity := 1.2, buoyancy := 0.6 }
  | "cascade" => some { mkProfile "gravity" 0.008 35 with gravity := 1.5, buoyancy := 0.3 }
  | "leaf" => some { mkProfile "flutter" 0.02 30 with
      airResistance := 0.6, flutterFreq := 4, flutterAmp := 0.5, terminalVelocity := 0.7 }
  | "wing" => some { mkProfile "spring" 0.012 20 with
      tension := 0.9, damping := 0.2, frequency := 5 }
  | "pendulum" => some { mkProfile "spring" 0.01 25 with
      tension := 0.6, damping := 0.18, frequency := 3 }
  | "spiral" => some { mkProfile "orbit" 0.01 25 with pull := 0.6, decay := 0.85 }
  | "bloom" => some { mkProfile "orbit" 0.008 30 with pull := 0.4, decay := 0.9 }
  | "surge" => some { mkProfile "momentum" 0.01 25 with drag := 0.15, inertia := 0.9 }
  | "scatter" => some { mkProfile "momentum" 0.015 20 with drag := 0.3, inertia := 0.7 }
  | "ribbon" => some { mkProfile "flutter" 0.008 35 with
      airResistance := 0.4, flutterFreq := 2.5, flutterAmp := 0.35, terminalVelocity := 0.8 }
  | "crackle" => some { mkProfile "momentum" 0.03 15 with drag := 0.05, inertia := 0.95 }
  | _ => none

/-- Embeds `DEFAULT_PROFILE` from `physics.js`. -/
def DEFAULT_PROFILE : PhysicsProfile :=
  { mkProfile "flutter" 0.01 25 with
    airResistance := 0.5, flutterFreq := 3, flutterAmp := 0.35, terminalVelocity := 0.8 }

/-- Embeds `applyGravity` from `physics.js`. -/
def applyGravity (x y t progress : ℝ) (profile : PhysicsProfile) (seed : ℝ) : Pos2 :=
  let gravityPull := profile.gravity * progress * progress * 50
  let buoyancyForce := profile.buoyancy * Real.sin (t * 1.5 + seed * 5) * 25 * (1 - progress * 0.3)
  let nx := noise2D (x * profile.noiseScale + t * 0.4) (seed * 100) * profile.noiseAmp
  let ny := noise2D (y * profile.noiseScale + t * 0.4) (seed * 100 + 50) * profile.noiseAmp * 0.6
  ⟨x + nx, y + gravityPull - buoyancyForce + ny⟩

/-- Embeds `applyFlutter` from `physics.js`. -/
def applyFlutter (x y t progress : ℝ) (profile : PhysicsProfile) (seed : ℝ) : Pos2 :=
  let speedFactor := 1 - profile.airResistance * min (progress * 1.5) profile.terminalVelocity
  let flutterEnvelope := Real.sin (progress * π)
  let flutter := Real.sin (t * profile.flutterFreq * π * 2 + seed * 8)
      * profile.flutterAmp * flutterEnvelope * 70
  let flutter2 := Real.cos (t * profile.flutterFreq * 0.7 * π * 2 + seed * 3)
      * profile.flutterAmp * 0.4 * flutterEnvelope * 30
  let nx := noise2D (t * 0.6 + seed * 100) (progress * 4) * profile.noiseAmp
  let ny := noise2D (t * 0.6 + seed * 100 + 50) (progress * 4) * profile.noiseAmp * 0.8
  ⟨x + flutter + flutter2 + nx, y * speedFactor + ny⟩

/-- Embeds `applySpring` from `physics.js`. -/
def applySpring (x y t progress : ℝ) (profile : PhysicsProfile) (seed : ℝ) : Pos2 :=
  let dampedAmp := profile.tension * Real.exp (-profile.damping * t * 1.5) * 45
  let springX := Real.sin (t * profile.frequency * π * 2 + seed * 6) * dampedAmp
  let springY := Real.cos (t * profile.frequency * π * 2 * 0.7 + seed * 4) * dampedAmp * 0.7
  let nx := noise2D (t * 0.8 + seed * 100) (progress * 2) * profile.noiseAmp
  let ny := noise2D (t * 0.8 + seed * 100 + 50) (progress * 2) * profile.noiseAmp
  ⟨x + springX + nx, y + springY + ny⟩

/-- Embeds `applyMomentum` from `physics.js`. -/
def applyMomentum (x y t progress : ℝ) (profile : PhysicsProfile) (seed : ℝ) : Pos2 :=
  let speed := profile.inertia * Real.exp (-profile.drag * t * 3)
  let momentumScale := 1 + (speed - 1) * (1 - progress)
  let nx := noise2D (t * 0.6 + seed * 100) (progress * 4) * profile.noiseAmp
  let ny := noise2D (t * 0.6 + seed * 100 + 50) (progress * 4) * profile.noiseAmp
  ⟨x * momentumScale + nx, y * momentumScale + ny⟩

/-- Embeds `applyOrbit` from `physics.js`. -/
def applyOrbit (x y t progress : ℝ) (profile : PhysicsProfile) (seed : ℝ) : Pos2 :=
  let pullStrength := profile.pull * progress * 0.3
  let orbitX := x * (1 - pullStrength)
  let orbitY := y * (1 - pullStrength)
  let angle := t * 0.3 * (1 + seed * 0.5)
  let c := Real.cos (angle * 0.1)
  let s := Real.sin (angle * 0.1)
  let rx := orbitX * c - orbitY * s * 0.1
  let ry := orbitX * s * 0.1 + orbitY * c
  let nx := noise2D (t * 0.4 + seed * 100) (progress * 2.5) * profile.noiseAmp
  let ny := noise2D (t * 0.4 + seed * 100 + 50) (progress * 2.5) * profile.noiseAmp
  ⟨rx + nx, ry + ny⟩

/-- Embeds `applyPhysics` from `physics.js`: profile lookup plus `PHYSICS_FNS` dispatch. -/
def applyPhysics (vocabularyType : String) (baseX baseY elapsed progress seed : ℝ) : Pos2 :=
  let profile := (PHYSICS_PROFILES vocabularyType).getD DEFAULT_PROFILE
  match profile.type with
  | "gravity" => applyGravity baseX baseY elapsed progress profile seed
  | "flutter" => applyFlutter baseX baseY elapsed progress profile seed
  | "spring" => applySpring baseX baseY elapsed progress profile seed
  | "momentum" => applyMomentum baseX baseY elapsed progress profile seed
  | "orbit" => applyOrbit baseX baseY elapsed progress profile seed
  | _ => ⟨baseX, baseY⟩

/-- Embeds `getPerlinDrift` from `physics.js`. -/
def getPerlinDrift (vocabularyType : String) (elapsed seed : ℝ) : Pos2 :=
  let profile := (PHYSICS_PROFILES vocabularyType).getD DEFAULT_PROFILE
  let nx := noise2D (elapsed * 0.4 + seed * 100) (seed * 200) * profile.noiseAmp
  let ny := noise2D (elapsed * 0.4 + seed * 100 + 50) (seed * 200 + 50) * profile.noiseAmp
  ⟨nx, ny⟩

-- ═══════════ Biomechanical motion models (`biomechanicalModels.js`) ═══════════

/-- A normalized path point `{x, y, t, intensity}`. -/
structure ImportPoint where
  x : ℝ
  y : ℝ
  t : ℝ
  intensity : ℝ

/-- Embeds `clamp01` from `biomechanicalModels.js`. -/
def clamp01 (v : ℝ) : ℝ := if v < 0 then 0 else if 1 < v then 1 else v

/-- Embeds `lerp` from `biomechanicalModels.js`. -/
def lerp (a b t : ℝ) : ℝ := a + (b - a) * t

/-- Embeds `smoothstep` from `biomechanicalModels.js`. -/
def smoothstep (t : ℝ) : ℝ := t * t * (3 - 2 * t)

/-- Embeds `seededRandom` from `biomechanicalModels.js`:
`fract (sin (seed * 127.1 + seed * 311.7) * 43758.5453)`. -/
def seededRandom (seed : ℝ) : ℝ :=
  Int.fract (Real.sin (seed * 127.1 + seed * 311.7) * 43758.5453)

/-- Embeds `makeTimeSteps` from `biomechanicalModels.js`. -/
def makeTimeSteps (n : ℕ) (duration : ℝ) : List ℝ :=
  (List.range (n + 1)).map fun i => (i : ℝ) / (n : ℝ) * duration

/-- Embeds `createWhaleBreachPath` from `biomechanicalModels.js`. -/
def createWhaleBreachPath (intensity duration seed : ℝ) : List ImportPoint :=
  let steps : ℕ := (max (jsRound (duration * 30)) 60).toNat
  let v := seededRandom seed
  let peakHeight := 0.3 + intensity * 0.35
  let horizontalDrift := 0.15 + intensity * 0.2
  let breachPoint := 0.25 + v * 0.1
  let gravity := 0.8 + intensity * 0.4
  (List.range (steps + 1)).map fun i =>
    let t := (i : ℝ) / (steps : ℝ)
    let time := t * duration
    let x := clamp01 (0.3 + horizontalDrift * t + Real.sin (t * π * (1 + v)) * 0.04)
    let y0 :=
      if t < breachPoint then
        let phase := t / breachPoint
        let eased := smoothstep phase
        0.7 - eased * peakHeight
      else
        let phase := (t - breachPoint) / (1 - breachPoint)
        let gravDescent := phase * phase * gravity
        let waterResist := if 0.7 < phase then (phase - 0.7) * 0.3 else 0
        (0.7 - peakHeight) + gravDescent * peakHeight - waterResist * 0.1
    let y := y0 + Real.sin (t * π * 6 * (1 + v * 0.5)) * 0.01 * (1 - t)
    let momentumIntensity :=
      if t < breachPoint then smoothstep (t / breachPoint) * intensity
      else intensity * max (1 - (t - breachPoint) / (1 - breachPoint) * 0.7) 0.2
    ⟨clamp01 x, clamp01 y, time, clamp01 momentumIntensity⟩

/-- Embeds `createWingBeatPath` from `biomechanicalModels.js`. -/
def createWingBeatPath (intensity duration seed : ℝ) : List ImportPoint :=
  let steps : ℕ := (max (jsRound (duration * 40)) 60).toNat
  let v := seededRandom seed
  let cycleTime := 0.8 + v * 0.3
  let amplitude := 0.12 + intensity * 0.18
  let asymmetry := 0.6 + intensity * 0.15
  (List.range (steps + 1)).map fun i =>
    let t := (i : ℝ) / (steps : ℝ)
    let time := t * duration
    let cycleProgress := jsMod (time / cycleTime) 1
    let cycle : ℤ := ⌊time / cycleTime⌋
    let phaseShift := seededRandom (seed + (cycle : ℝ) * 7.3) * 0.4 - 0.2
    let _theta := (cycleProgress + phaseShift) * π * 2
    let adjustedPhase :=
      if cycleProgress < 0.4 then smoothstep (cycleProgress / 0.4) * 0.5
      else 0.5 + (cycleProgress - 0.4) / 0.6 * 0.5
    let theta2 := adjustedPhase * π * 2
    let x := clamp01 (0.5 + Real.sin theta2 * amplitude * (0.8 + v * 0.4) + (cycle : ℝ) * 0.02)
    let rawY := Real.sin (theta2 * 2) * amplitude * asymmetry
    let y := clamp01 (0.5 - rawY + Real.sin (t * π * 2) * 0.02)
    let beatIntensity :=
      if cycleProgress < 0.4 then intensity * (0.6 + smoothstep (cycleProgress / 0.4) * 0.4)
      else intensity * (0.3 + (1 - (cycleProgress - 0.4) / 0.6) * 0.3)
    ⟨x, y, time, clamp01 beatIntensity⟩

/-- Embeds `createLeafFallPath` from `biomechanicalModels.js`. -/
def createLeafFallPath (intensity duration seed : ℝ) : List ImportPoint :=
  let steps : ℕ := (max (jsRound (duration * 30)) 80).toNat
  let v := seededRandom seed
  let tumbleFreq := 1.5 + intensity * 2 + v * 1.5
  let lateralAmp := 0.1 + intensity * 0.12 + v * 0.05
  let startAngle := v * π * 2
  let terminalVelocity := 0.55 + intensity * 0.15
  let startX := 0.3 + v * 0.4
  let startY := 0.05 + v * 0.1
  (List.range (steps + 1)).map fun i =>
    let t := (i : ℝ) / (steps : ℝ)
    let time := t * duration
    let k := 2.5 + intensity
    let velocityFrac := 1 - Real.exp (-k * t)
    let descent := velocityFrac * terminalVelocity * t
    let y := clamp01 (startY + descent)
    let tumblePhase := startAngle + t * π * 2 * tumbleFreq
    let decayingAmp := lateralAmp * (1 - t * 0.3)
    let x := clamp01 (startX + Real.sin tumblePhase * decayingAmp
      + Real.sin (tumblePhase * 2.3) * decayingAmp * 0.3)
    let tumbleIntensity := 0.1 + |Real.sin tumblePhase| * intensity * 0.5 + velocityFrac * 0.2
    ⟨x, y, time, clamp01 tumbleIntensity⟩

/-- Embeds `createFishDartPath` from `biomechanicalModels.js` (the loop carries
`posX`, `posY`, `currentAngle` and the accumulated path as fold state). -/
def createFishDartPath (intensity duration seed : ℝ) : List ImportPoint :=
  let steps : ℕ := (max (jsRound (duration * 40)) 60).toNat
  let v := seededRandom seed
  let dartAngle := v * π * 2
  let turnPoint := 0.35 + v * 0.2
  let turnAngle := (v - 0.5) * π * 1.2
  let dartSpeed := 0.2 + intensity * 0.25
  let waveFreq := 6 + intensity * 4
  let waveAmp := 0.03 + intensity * 0.04
  let res := (List.range (steps + 1)).foldl
    (fun (st : ℝ × ℝ × ℝ × List ImportPoint) i =>
      let posX0 := st.1
      let posY0 := st.2.1
      let currentAngle0 := st.2.2.1
      let path := st.2.2.2
      let t := (i : ℝ) / (steps : ℝ)
      let time := t * duration
      let sa : ℝ × ℝ :=
        if t < 0.15 then
          (smoothstep (t / 0.15) * dartSpeed * intensity, currentAngle0)
        else if t < turnPoint then
          let glidePhase := (t - 0.15) / (turnPoint - 0.15)
          (dartSpeed * intensity * (1 - glidePhase * 0.4), currentAngle0)
        else if t < turnPoint + 0.1 then
          let turnPhase := (t - turnPoint) / 0.1
          (dartSpeed * intensity * (0.6 + smoothstep turnPhase * 0.5),
           dartAngle + turnAngle * smoothstep turnPhase)
        else
          let endPhase := (t - turnPoint - 0.1) / (1 - turnPoint - 0.1)
          (dartSpeed * intensity * max (1.1 - endPhase * 1) 0.05, currentAngle0)
      let speed := sa.1
      let currentAngle := sa.2
      let wavePhase := t * π * 2 * waveFreq
      let waveLateral := Real.sin wavePhase * waveAmp * (0.5 + speed * 2)
      let perpAngle := currentAngle + π / 2
      let dt := 1 / (steps : ℝ)
      let posX := posX0 + Real.cos currentAngle * speed * dt * 8 + Real.cos perpAngle * waveLateral
      let posY := posY0 + Real.sin currentAngle * speed * dt * 8 + Real.sin perpAngle * waveLateral
      let dartIntensity := speed / (dartSpeed * max intensity 0.1)
      (posX, posY, currentAngle,
        path ++ [⟨clamp01 posX, clamp01 posY, time, clamp01 dartIntensity⟩]))
    (0.3 + v * 0.4, 0.3 + seededRandom (seed + 1) * 0.4, dartAngle, [])
  res.2.2.2

/-- Embeds `createSpiralPath` from `biomechanicalModels.js`. -/
def createSpiralPath (intensity duration seed : ℝ) : List ImportPoint :=
  let steps : ℕ := (max (jsRound (duration * 30)) 60).toNat
  let v := seededRandom seed
  let turns := 2 + intensity * 3 + v * 2
  let maxR := 0.15 + intensity * 0.15
  let tighten : Prop := 0.5 < v
  (List.range (steps + 1)).map fun i =>
    let t := (i : ℝ) / (steps : ℝ)
    let time := t * duration
    let angle := t * π * 2 * turns + v * π
    let r := if tighten then maxR * (1 - t * 0.7) else maxR * (0.3 + t * 0.7)
    let x := clamp01 (0.5 + Real.cos angle * r)
    let y := clamp01 (0.5 + Real.sin angle * r)
    ⟨x, y, time, clamp01 ((if tighten then 1 - t else t) * intensity)⟩

/-- Embeds `createSurgePath` from `biomechanicalModels.js`. -/
def createSurgePath (intensity duration seed : ℝ) : List ImportPoint :=
  let steps : ℕ := (max (jsRound (duration * 35)) 50).toNat
  let v := seededRandom seed
  let angle := v * π * 2
  let reach := 0.2 + intensity * 0.25
  (List.range (steps + 1)).map fun i =>
    let t := (i : ℝ) / (steps : ℝ)
    let time := t * duration
    let eased := 1 - Real.exp (-t * (3 + intensity * 2))
    let wobble := Real.sin (t * π * (4 + v * 3)) * 0.02 * (1 - t)
    let x := clamp01 (0.3 + Real.cos angle * eased * reach + wobble)
    let y := clamp01 (0.5 + Real.sin angle * eased * reach + wobble * 0.7)
    ⟨x, y, time, clamp01 (eased * intensity)⟩

/-- Embeds `createCascadePath` from `biomechanicalModels.js`. -/
def createCascadePath (intensity duration seed : ℝ) : List ImportPoint :=
  let steps : ℕ := (max (jsRound (duration * 30)) 60).toNat
  let v := seededRandom seed
  let lateralDrift := (v - 0.5) * 0.3
  (List.range (steps + 1)).map fun i =>
    let t := (i : ℝ) / (steps : ℝ)
    let time := t * duration
    let x := clamp01 (0.5 + lateralDrift * t + Real.sin (t * π * 3) * 0.06 * (1 - t * 0.5))
    let y := clamp01 (0.1 + t * t * 0.7)
    ⟨x, y, time, clamp01 (t * t * intensity + 0.1)⟩

/-- Embeds `createRibbonPath` from `biomechanicalModels.js`. -/
def createRibbonPath (intensity duration seed : ℝ) : List ImportPoint :=
  let steps : ℕ := (max (jsRound (duration * 30)) 60).toNat
  let v := seededRandom seed
  let freq := 1.5 + v * 2
  let amp := 0.12 + intensity * 0.1
  (List.range (steps + 1)).map fun i =>
    let t := (i : ℝ) / (steps : ℝ)
    let time := t * duration
    let x := clamp01 (0.15 + t * 0.7)
    let y := clamp01 (0.5 + Real.sin (t * π * freq * 2) * amp
      + Real.cos (t * π * freq * 0.7) * amp * 0.3)
    ⟨x, y, time, clamp01 (0.2 + |Real.sin (t * π * freq)| * intensity * 0.6)⟩

/-- Embeds `BIOMECHANICAL_MODELS` registry from `biomechanicalModels.js`. -/
def BIOMECHANICAL_MODELS (vocab : String) : Option (ℝ → ℝ → ℝ → List ImportPoint) :=
  match vocab with
  | "whale" => some createWhaleBreachPath
  | "wing" => some createWingBeatPath
  | "leaf" => some createLeafFallPath
  | "fish" => some createFishDartPath
  | "spiral" => some createSpiralPath
  | "surge" => some createSurgePath
  | "cascade" => some createCascadePath
  | "ribbon" => some createRibbonPath
  | "bloom" => some fun i d s => createSpiralPath i d s
  | "pendulum" => some fun i d s => createRibbonPath i d s
  | "scatter" => some fun i d s => createSurgePath i d s
  | "crackle" => some fun i d s => createFishDartPath i d s
  | _ => none

/-- The record returned by `generateBiomechanicalGesture` (the `description`
display string of `metadata` is not modelled). -/
structure BioGesture where
  source : String
  vocabulary : String
  name : String
  path : List ImportPoint
  duration : ℝ
  metaDuration : ℝ
  metaIntensityRange : ℝ × ℝ
  metaPointCount : ℕ
  metaSeed : ℝ

/-- Result assembly shared by both branches of `generateBiomechanicalGesture`. -/
def mkBioGesture (vocabulary : String) (intensity duration seed : ℝ)
    (path : List ImportPoint) : BioGesture :=
  { source := "biomechanical"
    vocabulary := vocabulary
    name := vocabulary ++ "_bio"
    path := path
    duration := match path.getLast? with
      | some p => p.t
      | none => duration
    metaDuration := duration
    metaIntensityRange := (max (intensity - 0.2) 0, min (intensity + 0.2) 1)
    metaPointCount := path.length
    metaSeed := seed }

/-- Embeds `generateBiomechanicalGesture` from `biomechanicalModels.js`.  The JS
default argument `seed = Math.random() * 999` is modelled by passing the
ambient `Math.random()` draw as `rng` and the optionally-supplied seed as
`seedArg`; unmodelled vocabularies recurse once into the `leaf` generator. -/
def generateBiomechanicalGesture (vocabulary : String) (intensity duration : ℝ)
    (seedArg : Option ℝ) (rng : ℝ) : BioGesture :=
  let seed := seedArg.getD (rng * 999)
  match BIOMECHANICAL_MODELS vocabulary with
  | some gen => mkBioGesture vocabulary intensity duration seed (gen intensity duration seed)
  | none =>
    match BIOMECHANICAL_MODELS "leaf" with
    | some gen => mkBioGesture "leaf" intensity duration seed (gen intensity duration seed)
    | none => mkBioGesture "leaf" intensity duration seed []

-- ═══════════ Natural motions (`src/js/movement/naturalMotions.js`) ═══════════

/-- The context a path function reads from its clip argument
(`origin`, `heading`, `scale`, `intensity`, `variation`, `duration`). -/
structure ClipCtx where
  origin : Pos2
  heading : ℝ
  scale : ℝ
  intensity : ℝ
  variation : ℝ
  duration : ℝ

/-- A `pathFn` result `{x, y, weight}`; `weight` may be absent
(the clip update applies `pos.weight ?? 1`). -/
structure PathPos where
  x : ℝ
  y : ℝ
  weight : Option ℝ

/-- An entry of the imported-gesture store `_importedGestures`. -/
structure ImportedGesture where
  name : String
  path : List ImportPoint
  duration : ℝ

/-- The argument of `loadGestureFromData`; `path` and `vocabulary` may be
missing (JS `undefined`). -/
structure GestureData where
  name : String
  vocabulary : Option String
  path : Option (List ImportPoint)
  duration : Option ℝ

/-- The `_importedGestures` map, modelled as an association list. -/
abbrev GestureStore := List (String × ImportedGesture)

/-- Embeds `_importedGestures[vocab]` read access. -/
def storeLookup (store : GestureStore) (vocab : String) : Option ImportedGesture :=
  (store.find? fun e => e.1 == vocab).map (·.2)

/-- Embeds `_importedGestures[vocab] = g` assignment. -/
def storeInsert (store : GestureStore) (vocab : String) (g : ImportedGesture) : GestureStore :=
  (vocab, g) :: store.filter fun e => !(e.1 == vocab)

/-- Insertion step of the stable ascending sort by timestamp. -/
def insertByT (p : ImportPoint) : List ImportPoint → List ImportPoint
  | [] => [p]
  | q :: qs => if q.t ≤ p.t then q :: insertByT p qs else p :: q :: qs

/-- JS `path.sort((a, b) => a.t - b.t)`: stable ascending sort by `t`. -/
def sortByT : List ImportPoint → List ImportPoint
  | [] => []
  | p :: ps => insertByT p (sortByT ps)

/-- Minimum of a list as computed by the JS `for` loop starting at `Infinity`. -/
def listMin : List ℝ → ℝ
  | [] => 0
  | a :: as => as.foldl min a

/-- Maximum of a list as computed by the JS `for` loop starting at `-Infinity`. -/
def listMax : List ℝ → ℝ
  | [] => 0
  | a :: as => as.foldl max a

/-- Embeds `_smoothPath` from `naturalMotions.js` (moving-average smoothing). -/
def smoothPath (path : List ImportPoint) (windowSize : ℕ) : List ImportPoint :=
  if path.length < windowSize then path
  else
    let half := windowSize / 2
    (List.range path.length).map fun i =>
      let lo := i - half
      let hi := min (path.length - 1) (i + half)
      let window := (List.range (hi + 1 - lo)).map fun k => path.getD (lo + k) ⟨0, 0, 0, 0⟩
      let count := (window.length : ℝ)
      { x := (window.map (·.x)).sum / count
        y := (window.map (·.y)).sum / count
        t := (path.getD i ⟨0, 0, 0, 0⟩).t
        intensity := (window.map (·.intensity)).sum / count }

/-- Embeds `loadGestureFromData` from `naturalMotions.js`: validation, sort by `t`,
range normalization to the full 0-1 square, and store assignment.  Returns
the success flag and the updated store (localStorage persistence is I/O and
not modelled). -/
def loadGestureFromData (gestureData : Option GestureData) (store : GestureStore) :
    Bool × GestureStore :=
  match gestureData with
  | none => (false, store)
  | some gd =>
    match gd.path, gd.vocabulary with
    | none, _ => (false, store)
    | some _, none => (false, store)
    | some path0, some vocab =>
      if path0.length < 2 then (false, store)
      else
        let path1 := sortByT path0
        let minX := listMin (path1.map (·.x))
        let maxX := listMax (path1.map (·.x))
        let minY := listMin (path1.map (·.y))
        let maxY := listMax (path1.map (·.y))
        let rangeX := jsNumOr (maxX - minX) 0.001
        let rangeY := jsNumOr (maxY - minY) 0.001
        let path2 := path1.map fun p =>
          { x := (p.x - minX) / rangeX
            y := (p.y - minY) / rangeY
            t := p.t
            intensity := p.intensity : ImportPoint }
        let fallbackDuration := ((path2.getLast?).map (·.t)).getD 0
        let duration := jsOptNumOr gd.duration fallbackDuration
        (true, storeInsert store vocab { name := gd.name, path := path2, duration := duration })

/-- Embeds `_hermite` (Catmull-Rom) interpolation from `naturalMotions.js`. -/
def hermite (p0 p1 p2 p3 t : ℝ) : ℝ :=
  let t2 := t * t
  let t3 := t2 * t
  (2 * t3 - 3 * t2 + 1) * p1 + (t3 - 2 * t2 + t) * 0.5 * (p2 - p0)
    + (-2 * t3 + 3 * t2) * p2 + (t3 - t2) * 0.5 * (p3 - p1)

/-- The `while (lo < hi - 1)` binary search of `_sampleImportedPath`. -/
def bsearchLoop (path : List ImportPoint) (targetTime : ℝ) (lo hi : ℕ) : ℕ × ℕ :=
  if h : lo + 1 < hi then
    let mid := (lo + hi) / 2
    if (path.getD mid ⟨0, 0, 0, 0⟩).t ≤ targetTime then bsearchLoop path targetTime mid hi
    else bsearchLoop path targetTime lo mid
  else (lo, hi)
termination_by hi - lo
decreasing_by
  · omega
  · omega

/-- Embeds `_sampleImportedPath` from `naturalMotions.js`: time stretch, loop
wrapping, per-cycle drift, Hermite interpolation, scale variance, heading
rotation and origin translation. -/
def sampleImportedPath (imported : ImportedGesture) (t : ℝ) (clip : ClipCtx) : PathPos :=
  let path := imported.path
  let duration := imported.duration
  let timeStretch := 0.3
  let tStretched := t * timeStretch
  let tNorm := jsMod tStretched 1
  let cycle : ℤ := ⌊tStretched⌋
  let driftSeed := jsNumOr clip.variation 0 * 1000 + (cycle : ℝ) * 137.5
  let driftX := Real.sin driftSeed * clip.scale * 60 + Real.cos (driftSeed * 0.7) * clip.scale * 30
  let driftY := Real.cos (driftSeed * 1.3) * clip.scale * 40
    + Real.sin (driftSeed * 0.4) * clip.scale * 20
  let targetTime := tNorm * duration
  let lh := bsearchLoop path targetTime 0 (path.length - 1)
  let i0 := max (lh.1 - 1) 0
  let i1 := lh.1
  let i2 := lh.2
  let i3 := min (lh.2 + 1) (path.length - 1)
  let p0 := path.getD i0 ⟨0, 0, 0, 0⟩
  let p1 := path.getD i1 ⟨0, 0, 0, 0⟩
  let p2 := path.getD i2 ⟨0, 0, 0, 0⟩
  let p3 := path.getD i3 ⟨0, 0, 0, 0⟩
  let span := p2.t - p1.t
  let frac := if 0.001 < span then (targetTime - p1.t) / span else 0
  let nx := hermite p0.x p1.x p2.x p3.x frac
  let ny := hermite p0.y p1.y p2.y p3.y frac
  let ni := p1.intensity + (p2.intensity - p1.intensity) * frac
  let scaleVar := 0.6 + jsNumOr clip.variation 0.5 * 0.8
  let range := clip.scale * 250 * scaleVar
  let dx := (nx - 0.5) * range
  let dy := (ny - 0.5) * range
  let cosH := Real.cos clip.heading
  let sinH := Real.sin clip.heading
  let rx := dx * cosH - dy * sinH
  let ry := dx * sinH + dy * cosH
  let x := clip.origin.x + rx + driftX
  let y := clip.origin.y + ry + driftY
  let weight := 0.2 + min (ni * clip.intensity) 0.8
  ⟨x, y, some weight⟩

/-- The body of the closure returned by `createHybridPathFn`: imported video
data (when the toggle is on and the store has this vocabulary) takes priority;
otherwise a biomechanical gesture generated from the requesting clip
(seeded with `clip.variation * 999`, smoothed with window 5) is sampled.
The closure's lazy cache is keyed by the clip's variation seed, so the cached
value always equals this regeneration for the clip being served. -/
def hybridPath (useVideoImports : Bool) (store : GestureStore) (vocabulary : String)
    (t : ℝ) (clip : ClipCtx) : PathPos :=
  let imported := if useVideoImports then storeLookup store vocabulary else none
  match imported with
  | some imp => sampleImportedPath imp t clip
  | none =>
    let clipSeed := jsNumOr clip.variation 0
    let bio := generateBiomechanicalGesture vocabulary (jsNumOr clip.intensity 0.5)
      (jsNumOr clip.duration 6) (some (clipSeed * 999)) 0
    let bioGesture : ImportedGesture :=
      { name := bio.name, path := smoothPath bio.path 5, duration := bio.duration }
    sampleImportedPath bioGesture t clip

-- ═══════════ Clip lifecycle (`modeManager.js` clip manager section) ═══════════

/-- Embeds `ClipState` from `modeManager.js`. -/
inductive ClipState where
  | pending
  | active
  | sustaining
  | releasing
  | complete
deriving DecidableEq

/-- A visual-mode configuration from `Config.visualModes` (`config.js`).
Fields that are absent on some modes are `Option`s; render-only tuning
(`trailFadeRange`, `enableGlow`, `lineWidthRange`, …) is not read by the
clip core and is omitted. -/
structure VisualModeCfg where
  name : String
  maxConcurrent : ℕ
  clipCooldown : ℝ
  sustainPingPong : Bool
  sustainDriftScale : Option ℝ
  sustainBreathing : Option ℝ
  sustainBlendTime : ℝ
  sustainEntryThreshold : ℝ
  usePhysics : Bool
  usePerlinDrift : Bool
  durationMultiplier : Option ℝ
  physicsTimeScale : Option ℝ
  physicsAmpScale : Option ℝ
  easingOverride : Option String
  pathTScale : Option ℝ

/-- Embeds `Config.visualModes.jazz` from `config.js`. -/
def jazzMode : VisualModeCfg :=
  { name := "Jazz", maxConcurrent := 5, clipCooldown := 0.12, sustainPingPong := true
    sustainDriftScale := some 5, sustainBreathing := some 0.05, sustainBlendTime := 0.4
    sustainEntryThreshold := 0.85, usePhysics := false, usePerlinDrift := false
    durationMultiplier := none, physicsTimeScale := none, physicsAmpScale := none
    easingOverride := none, pathTScale := none }

/-- Embeds `Config.visualModes.organic` from `config.js`. -/
def organicMode : VisualModeCfg :=
  { name := "Organic Flow", maxConcurrent := 3, clipCooldown := 2, sustainPingPong := false
    sustainDriftScale := some 0, sustainBreathing := some 0.015, sustainBlendTime := 1.5
    sustainEntryThreshold := 0.92, usePhysics := true, usePerlinDrift := true
    durationMultiplier := some 3.5, physicsTimeScale := some 0.12, physicsAmpScale := some 0.2
    easingOverride := some "sine", pathTScale := some 0.45 }

/-- Embeds `Config.visualModes.cinematic` from `config.js`. -/
def cinematicMode : VisualModeCfg :=
  { name := "Cinematic", maxConcurrent := 3, clipCooldown := 0.3, sustainPingPong := false
    sustainDriftScale := some 2, sustainBreathing := some 0.02, sustainBlendTime := 0.8
    sustainEntryThreshold := 0.95, usePhysics := false, usePerlinDrift := false
    durationMultiplier := none, physicsTimeScale := none, physicsAmpScale := none
    easingOverride := none, pathTScale := none }

/-- Embeds `Config.visualModes.minimal` from `config.js`. -/
def minimalMode : VisualModeCfg :=
  { name := "Minimal", maxConcurrent := 2, clipCooldown := 0.25, sustainPingPong := false
    sustainDriftScale := some 0, sustainBreathing := some 0, sustainBlendTime := 0
    sustainEntryThreshold := 1.1, usePhysics := false, usePerlinDrift := false
    durationMultiplier := none, physicsTimeScale := none, physicsAmpScale := none
    easingOverride := none, pathTScale := none }

/-- Embeds `Config.visualModes` lookup from `config.js`. -/
def configVisualModes (name : String) : Option VisualModeCfg :=
  match name with
  | "jazz" => some jazzMode
  | "organic" => some organicMode
  | "cinematic" => some cinematicMode
  | "minimal" => some minimalMode
  | _ => none

/-- Embeds `Config.defaultVisualMode` from `config.js`. -/
def configDefaultVisualMode : String := "jazz"

/-- A point of the clip's rendered buffer `{x, y, weight, progress}`. -/
structure TracePoint where
  x : ℝ
  y : ℝ
  weight : ℝ
  progress : ℝ

/-- Embeds `GestureClip` from `modeManager.js`; every instance field of the JS class
is a record field (the `id` string and the per-frame MIDI expression mirrors
`livePitchBend`/`liveSlide`, written only by external input code, are kept
as plain data). -/
structure GestureClip where
  vocabularyType : String
  duration : ℝ
  intensity : ℝ
  variation : ℝ
  origin : Pos2
  heading : ℝ
  scale : ℝ
  pathFn : ℝ → ClipCtx → PathPos
  easingFn : ℝ → ℝ
  state : ClipState
  elapsed : ℝ
  progress : ℝ
  easedProgress : ℝ
  midiNoteKey : Option String
  _midiHeld : Bool
  sustainCycles : ℤ
  maxSustainCycles : ℤ
  _sustainStart : ℝ
  _sustainEntryT : ℝ
  _currentPathT : ℝ
  _releaseStart : ℝ
  _releaseProgressStart : ℝ
  _releaseDuration : ℝ
  points : List TracePoint
  liveIntensity : ℝ
  _completedAge : ℝ
  mode : Option VisualModeCfg

/-- The read-only view of a clip passed to its `pathFn`. -/
def GestureClip.ctx (c : GestureClip) : ClipCtx :=
  ⟨c.origin, c.heading, c.scale, c.intensity, c.variation, c.duration⟩

/-- Embeds `GestureClip.activate`. -/
def GestureClip.activate (c : GestureClip) : GestureClip :=
  { c with state := ClipState.active, elapsed := 0, progress := 0,
           easedProgress := 0, _currentPathT := 0 }

/-- Embeds `GestureClip._beginRelease`: enter `RELEASING` with the computed
release duration. -/
def beginRelease (c : GestureClip) : GestureClip :=
  { c with state := ClipState.releasing
           _releaseStart := c.elapsed
           _releaseProgressStart := c._currentPathT
           _releaseDuration := max ((1 - c._currentPathT) * c.duration * 0.5) 0.15 }

/-- The `RELEASING` branch of `GestureClip.update` (elapsed already advanced). -/
def updateReleasing (c : GestureClip) (elapsed : ℝ) : GestureClip × ℝ :=
  let since := elapsed - c._releaseStart
  let frac := min (since / c._releaseDuration) 1
  let eased := easeOutQuad frac
  let pathT := c._releaseProgressStart + (1 - c._releaseProgressStart) * eased
  ({ c with elapsed := elapsed, progress := pathT,
            state := if 1 ≤ frac then ClipState.complete else ClipState.releasing }, pathT)

/-- The `SUSTAINING` branch of `GestureClip.update` (elapsed already advanced). -/
def updateSustaining (shouldSustain : Bool) (c : GestureClip) (elapsed : ℝ) : GestureClip × ℝ :=
  let since := elapsed - c._sustainStart
  let halfCycle := c.duration * 0.6
  let phaseA := jsMod (since / halfCycle) 2
  let phaseB :=
    if (c.mode.map fun m => m.sustainPingPong).getD false = true then
      if 1 < phaseA then 2 - phaseA else phaseA
    else jsMod phaseA 1
  let phase := easeInOutSine phaseB
  let loopT := 0.3 + phase * 0.4
  let blendTime := jsOptNumOr (c.mode.map fun m => m.sustainBlendTime) 0.4
  let blend := if 0 < blendTime then min (since / blendTime) 1 else 1
  let blendEased := easeOutQuad blend
  let pathT := c._sustainEntryT * (1 - blendEased) + loopT * blendEased
  let cycles : ℤ := ⌊since / (halfCycle * 2)⌋
  let c1 := { c with elapsed := elapsed, progress := pathT, sustainCycles := cycles }
  let shouldKeep := if c.midiNoteKey.isSome then c._midiHeld else shouldSustain
  (if shouldKeep = false ∨ c.maxSustainCycles ≤ cycles then beginRelease c1 else c1, pathT)

/-- The `ACTIVE` branch of `GestureClip.update` (elapsed already advanced). -/
def updateActive (shouldSustain : Bool) (c : GestureClip) (elapsed : ℝ) : GestureClip × ℝ :=
  let progress := min (elapsed / c.duration) 1
  let pathT := c.easingFn progress
  let modeThreshold := jsOptNumOr (c.mode.map fun m => m.sustainEntryThreshold) 0.85
  let sustainThreshold := if c.midiNoteKey.isSome then modeThreshold else 1
  let c1 := { c with elapsed := elapsed, progress := progress }
  if sustainThreshold ≤ progress then
    let shouldKeep := if c.midiNoteKey.isSome then c._midiHeld else shouldSustain
    if shouldKeep = true ∧ c.sustainCycles < c.maxSustainCycles then
      ({ c1 with state := ClipState.sustaining, _sustainStart := elapsed,
                 _sustainEntryT := pathT }, pathT)
    else if 1 ≤ progress then
      ({ c1 with state := ClipState.complete }, 1)
    else (c1, pathT)
  else (c1, pathT)

/-- The sine drift of the non-physics (`else`) arm of the update tail:
returns `(driftX, driftY, breathWeight)`. -/
def jazzDrift (c : GestureClip) (driftScale breathAmt : ℝ) : ℝ × ℝ × ℝ :=
  if c.state = ClipState.sustaining ∧ 0 < driftScale then
    let t := c.elapsed
    (Real.sin (t * 0.7 + c.variation * 10) * c.scale * driftScale,
     Real.cos (t * 0.5 + c.variation * 7) * c.scale * driftScale,
     1 + breathAmt * Real.sin (t * 1.5))
  else if c.state = ClipState.releasing ∧ 0 < driftScale then
    let since := c.elapsed - c._releaseStart
    let fade := 1 - min (since / c._releaseDuration) 1
    (Real.sin (c.elapsed * 0.7 + c.variation * 10) * c.scale * driftScale * fade,
     Real.cos (c.elapsed * 0.5 + c.variation * 7) * c.scale * driftScale * fade,
     1 + breathAmt * Real.sin (c.elapsed * 1.5) * fade)
  else (0, 0, 1)

/-- The organic-mode (`usePhysics`) arm of the update tail: physics offset,
optional Perlin drift during sustain/release, breathing weight.  Returns
`(finalX, finalY, breathWeight)`. -/
def physDrift (c : GestureClip) (pos : PathPos) (breathAmt : ℝ) : ℝ × ℝ × ℝ :=
  let usePerlin := (c.mode.map fun m => m.usePerlinDrift).getD false
  let timeScale := jsOptNumOr (c.mode.bind fun m => m.physicsTimeScale) 1
  let ampScale := jsOptNumOr (c.mode.bind fun m => m.physicsAmpScale) 1
  let phys := applyPhysics c.vocabularyType pos.x pos.y (c.elapsed * timeScale)
    (min c.progress 1) c.variation
  let offsetX := (phys.x - pos.x) * ampScale
  let offsetY := (phys.y - pos.y) * ampScale
  let finalX := pos.x + offsetX
  let finalY := pos.y + offsetY
  let fxy : ℝ × ℝ :=
    if usePerlin = true ∧ (c.state = ClipState.sustaining ∨ c.state = ClipState.releasing) then
      let drift := getPerlinDrift c.vocabularyType (c.elapsed * timeScale) c.variation
      let fade := if c.state = ClipState.releasing then
          1 - min ((c.elapsed - c._releaseStart) / c._releaseDuration) 1
        else 1
      (finalX + drift.x * c.scale * fade * ampScale,
       finalY + drift.y * c.scale * fade * ampScale)
    else (finalX, finalY)
  (fxy.1, fxy.2, 1 + breathAmt * Real.sin (c.elapsed * 0.8))

/-- The point-buffer cap of `GestureClip.update`: over 2000 points, keep
only the most recent 1500 (`this.points.slice(-1500)`). -/
def capPoints (l : List TracePoint) : List TracePoint :=
  if 2000 < l.length then l.drop (l.length - 1500) else l

/-- The tail of `GestureClip.update`: store the eased phase, query the path
function, apply mode-dependent physics or sine drift, and append the point
to the (capped) buffer. -/
def pushPoint (pathT : ℝ) (c0 : GestureClip) : GestureClip :=
  let c := { c0 with _currentPathT := pathT, easedProgress := pathT }
  let pathTScale := jsOptNumOr (c.mode.bind fun m => m.pathTScale) 1
  let scaledPathT := pathT * pathTScale
  let pos := c.pathFn scaledPathT c.ctx
  let usePhysics := (c.mode.map fun m => m.usePhysics).getD false
  let driftScale := (c.mode.bind fun m => m.sustainDriftScale).getD 5
  let breathAmt := (c.mode.bind fun m => m.sustainBreathing).getD 0.05
  let fxyw : ℝ × ℝ × ℝ :=
    if usePhysics = true then physDrift c pos breathAmt
    else
      let dxyw := jazzDrift c driftScale breathAmt
      (pos.x + dxyw.1, pos.y + dxyw.2.1, dxyw.2.2)
  let pt : TracePoint :=
    ⟨fxyw.1, fxyw.2.1, pos.weight.getD 1 * fxyw.2.2, min c.progress 1⟩
  { c with points := capPoints (c.points ++ [pt]) }

/-- Embeds `GestureClip.update(dt, shouldSustain)` from `modeManager.js`. -/
def GestureClip.update (dt : ℝ) (shouldSustain : Bool) (c : GestureClip) : GestureClip :=
  if c.state = ClipState.pending ∨ c.state = ClipState.complete then c
  else
    let elapsed := c.elapsed + dt
    let br :=
      if c.state = ClipState.releasing then updateReleasing c elapsed
      else if c.state = ClipState.sustaining then updateSustaining shouldSustain c elapsed
      else updateActive shouldSustain c elapsed
    pushPoint br.2 br.1

/-- Embeds `GestureClip.release()` from `modeManager.js`. -/
def GestureClip.release (c : GestureClip) : GestureClip :=
  if c.state = ClipState.releasing ∨ c.state = ClipState.complete then c
  else
    let c1 := { c with _midiHeld := false }
    if c1.state = ClipState.sustaining ∧ c1.midiNoteKey.isSome then beginRelease c1
    else if c1.state = ClipState.active ∧ c1.midiNoteKey.isSome then c1
    else { c1 with state := ClipState.complete }

/-- Embeds `GestureClip.isComplete()`. -/
def GestureClip.isComplete (c : GestureClip) : Bool :=
  c.state = ClipState.complete

/-- Embeds `GestureClip.isActive()` (non-terminal: active, sustaining or releasing). -/
def GestureClip.isActive (c : GestureClip) : Bool :=
  match c.state with
  | ClipState.active | ClipState.sustaining | ClipState.releasing => true
  | _ => false

/-- Embeds `GestureClip.isSustaining()`. -/
def GestureClip.isSustaining (c : GestureClip) : Bool :=
  c.state = ClipState.sustaining

-- ═══════════ Clip scheduler (`ClipQueue` in `modeManager.js`) ═══════════

/-- Embeds `ClipQueue` state. -/
structure ClipQueue where
  maxConcurrent : ℕ
  clips : List GestureClip
  cooldown : ℝ
  _lastSpawnTime : ℝ
  _clock : ℝ
  visualMode : Option VisualModeCfg

/-- The `ClipQueue` constructor (`new ClipQueue(maxConcurrent)`). -/
def ClipQueue.init (maxConcurrent : ℕ) : ClipQueue :=
  { maxConcurrent := maxConcurrent
    clips := []
    cooldown := 0.12
    _lastSpawnTime := 0
    _clock := 0
    visualMode := configVisualModes configDefaultVisualMode }

/-- The mode-aware clip tuning performed on acceptance by
`ClipQueue.enqueue`: stamp the visual mode, scale the duration, override
the easing. -/
def tuneClip (vm : Option VisualModeCfg) (clip : GestureClip) : GestureClip :=
  let clip := { clip with mode := vm }
  match vm with
  | none => clip
  | some m =>
    let clip :=
      match m.durationMultiplier with
      | none => clip
      | some dm => if dm = 0 then clip else { clip with duration := clip.duration * dm }
    match m.easingOverride with
    | none => clip
    | some eo =>
      match EASING_MAP eo with
      | none => clip
      | some f => { clip with easingFn := f }

/-- Number of non-terminal clips (`this.clips.filter(c => c.isActive()).length`). -/
def ClipQueue.activeCount (q : ClipQueue) : ℕ :=
  (q.clips.filter fun c => c.isActive).length

/-- Embeds `ClipQueue.enqueue(clip)` from `modeManager.js`: cooldown gate, then
concurrency gate, then tune + activate + append + record spawn time. -/
def ClipQueue.enqueue (q : ClipQueue) (clip : GestureClip) : Bool × ClipQueue :=
  if q._clock - q._lastSpawnTime < q.cooldown then (false, q)
  else if q.maxConcurrent ≤ q.activeCount then (false, q)
  else
    let clip := (tuneClip q.visualMode clip).activate
    (true, { q with clips := q.clips ++ [clip], _lastSpawnTime := q._clock })

/-- Embeds `ClipQueue.setVisualMode(modeName)`. -/
def ClipQueue.setVisualMode (q : ClipQueue) (modeName : String) : ClipQueue :=
  match configVisualModes modeName with
  | none => q
  | some m =>
    { q with visualMode := some m, maxConcurrent := m.maxConcurrent, cooldown := m.clipCooldown }

/-- Embeds `ClipQueue.update(dt, isContinuous, fadeDelay)`: advance the clock,
advance every clip, age and prune completed clips past the fade window. -/
def ClipQueue.update (dt : ℝ) (isContinuous : Bool) (fadeDelay : ℝ) (q : ClipQueue) : ClipQueue :=
  let clips := q.clips.map (GestureClip.update dt isContinuous)
  let clips := clips.map fun c =>
    if c.isComplete then { c with _completedAge := c._completedAge + dt } else c
  let clips := clips.filter fun c => !c.isComplete || decide (c._completedAge < fadeDelay)
  { q with _clock := q._clock + dt, clips := clips }

/-- The per-clip action of `ClipQueue.releaseAll()`: release sustaining
clips that carry no MIDI note binding. -/
def releaseAllStep (c : GestureClip) : GestureClip :=
  if c.isSustaining = true ∧ c.midiNoteKey = none then c.release else c

/-- Embeds `ClipQueue.releaseAll()` from `modeManager.js`. -/
def ClipQueue.releaseAll (q : ClipQueue) : ClipQueue :=
  { q with clips := q.clips.map releaseAllStep }

/-- Embeds `ClipQueue.releaseMidiNote(noteKey)` from `modeManager.js`. -/
def ClipQueue.releaseMidiNote (q : ClipQueue) (noteKey : String) : ClipQueue :=
  { q with clips := q.clips.map fun c =>
      if c.midiNoteKey = some noteKey ∧ c.isActive = true then c.release else c }

-- ═══════════ Shared helper lemmas ═══════════

theorem pushPoint_state (t : ℝ) (c : GestureClip) : (pushPoint t c).state = c.state := rfl

theorem pushPoint_progress (t : ℝ) (c : GestureClip) : (pushPoint t c).progress = c.progress := rfl

theorem pushPoint_easedProgress (t : ℝ) (c : GestureClip) :
    (pushPoint t c).easedProgress = t := rfl

theorem pushPoint_elapsed (t : ℝ) (c : GestureClip) : (pushPoint t c).elapsed = c.elapsed := rfl

theorem pushPoint_duration (t : ℝ) (c : GestureClip) : (pushPoint t c).duration = c.duration := rfl

theorem pushPoint_easingFn (t : ℝ) (c : GestureClip) : (pushPoint t c).easingFn = c.easingFn := rfl

theorem pushPoint_midiNoteKey (t : ℝ) (c : GestureClip) :
    (pushPoint t c).midiNoteKey = c.midiNoteKey := rfl

theorem pushPoint_mode (t : ℝ) (c : GestureClip) : (pushPoint t c).mode = c.mode := rfl

theorem pushPoint_releaseStart (t : ℝ) (c : GestureClip) :
    (pushPoint t c)._releaseStart = c._releaseStart := rfl

theorem pushPoint_releaseDuration (t : ℝ) (c : GestureClip) :
    (pushPoint t c)._releaseDuration = c._releaseDuration := rfl

theorem update_terminal (dt : ℝ) (ss : Bool) (c : GestureClip)
    (h : c.state = ClipState.pending ∨ c.state = ClipState.complete) :
    GestureClip.update dt ss c = c := by
  unfold GestureClip.update
  rw [if_pos h]

theorem update_active_eq (dt : ℝ) (ss : Bool) (c : GestureClip)
    (h : c.state = ClipState.active) :
    GestureClip.update dt ss c =
      pushPoint (updateActive ss c (c.elapsed + dt)).2 (updateActive ss c (c.elapsed + dt)).1 := by
  simp [GestureClip.update, h]

theorem update_releasing_eq (dt : ℝ) (ss : Bool) (c : GestureClip)
    (h : c.state = ClipState.releasing) :
    GestureClip.update dt ss c =
      pushPoint (updateReleasing c (c.elapsed + dt)).2 (updateReleasing c (c.elapsed + dt)).1 := by
  simp [GestureClip.update, h]

theorem update_sustaining_eq (dt : ℝ) (ss : Bool) (c : GestureClip)
    (h : c.state = ClipState.sustaining) :
    GestureClip.update dt ss c =
      pushPoint (updateSustaining ss c (c.elapsed + dt)).2
        (updateSustaining ss c (c.elapsed + dt)).1 := by
  simp [GestureClip.update, h]

/-- A concrete clip with the constructor's default timing fields, used to
instantiate witnesses. -/
def sampleClip : GestureClip :=
  { vocabularyType := "whale"
    duration := 1
    intensity := 0.5
    variation := 0.25
    origin := ⟨100, 100⟩
    heading := 0
    scale := 1
    pathFn := fun _ _ => ⟨0, 0, none⟩
    easingFn := easeInOutCubic
    state := ClipState.pending
    elapsed := 0
    progress := 0
    easedProgress := 0
    midiNoteKey := none
    _midiHeld := false
    sustainCycles := 0
    maxSustainCycles := 20
    _sustainStart := 0
    _sustainEntryT := 0
    _currentPathT := 0
    _releaseStart := 0
    _releaseProgressStart := 0
    _releaseDuration := 0.4
    points := []
    liveIntensity := 0.5
    _completedAge := 0
    mode := none }

-- ═══════════ C5 ═══════════

/-- C5: for every clip whose state is `Pending` or `Complete`, `update` is a
no-op — the clip record (in particular its point buffer) is unchanged by any
sequence of subsequent `update` calls. -/
theorem update_noop_on_terminal (c : GestureClip)
    (h : c.state = ClipState.pending ∨ c.state = ClipState.complete)
    (ticks : List (ℝ × Bool)) :
    ticks.foldl (fun acc p => GestureClip.update p.1 p.2 acc) c = c ∧
    (ticks.foldl (fun acc p => GestureClip.update p.1 p.2 acc) c).points = c.points := by
  have hfold : ticks.foldl (fun acc p => GestureClip.update p.1 p.2 acc) c = c := by
    induction ticks with
    | nil => rfl
    | cons p ps ih =>
      rw [List.foldl_cons, update_terminal p.1 p.2 c h]
      exact ih
  exact ⟨hfold, by rw [hfold]⟩

/-- Witness for C5 at a concrete completed clip and a two-tick schedule. -/
theorem update_noop_on_terminal_witness :
    ([((1 : ℝ), false), ((0.5 : ℝ), true)].foldl (fun acc p => GestureClip.update p.1 p.2 acc)
        { sampleClip with state := ClipState.complete })
      = { sampleClip with state := ClipState.complete } :=
  (update_noop_on_terminal { sampleClip with state := ClipState.complete }
    (Or.inr rfl) [((1 : ℝ), false), ((0.5 : ℝ), true)]).1

-- ═══════════ C7 ═══════════

/-- C7: with the vocabulary, intensity, duration and seed all supplied, the
biomechanical generator never consults the ambient random source, so two
calls with identical arguments return identical records — in particular
point-for-point identical paths. -/
theorem generateBiomechanicalGesture_deterministic (vocabulary : String)
    (intensity duration seed rngA rngB : ℝ) :
    (generateBiomechanicalGesture vocabulary intensity duration (some seed) rngA).path
        = (generateBiomechanicalGesture vocabulary intensity duration (some seed) rngB).path ∧
    generateBiomechanicalGesture vocabulary intensity duration (some seed) rngA
        = generateBiomechanicalGesture vocabulary intensity duration (some seed) rngB :=
  ⟨rfl, rfl⟩

-- ═══════════ C2 (helpers shared with C9/C10) ═══════════

theorem enqueue_reject (q : ClipQueue) (clip : GestureClip)
    (h : q._clock - q._lastSpawnTime < q.cooldown ∨ q.maxConcurrent ≤ q.activeCount) :
    q.enqueue clip = (false, q) := by
  rcases h with h | h
  · unfold ClipQueue.enqueue
    rw [if_pos h]
  · by_cases hc : q._clock - q._lastSpawnTime < q.cooldown
    · unfold ClipQueue.enqueue
      rw [if_pos hc]
    · unfold ClipQueue.enqueue
      rw [if_neg hc, if_pos h]

theorem enqueue_accept (q : ClipQueue) (clip : GestureClip)
    (h1 : q.cooldown ≤ q._clock - q._lastSpawnTime) (h2 : q.activeCount < q.maxConcurrent) :
    q.enqueue clip =
      (true, { q with clips := q.clips ++ [(tuneClip q.visualMode clip).activate],
                      _lastSpawnTime := q._clock }) := by
  unfold ClipQueue.enqueue
  rw [if_neg (not_lt.mpr h1), if_neg (not_le.mpr h2)]

/-- C2: `ClipQueue.enqueue` rejects — returning `false` with the scheduler
state unchanged — exactly when the cooldown has not elapsed since the last
accepted spawn or the non-terminal clip count is at the concurrency cap;
otherwise it stamps the active visual mode onto the clip, activates it,
appends it to the live set, records the spawn time, and returns `true`. -/
theorem enqueue_spec (q : ClipQueue) (clip : GestureClip) :
    ((q._clock - q._lastSpawnTime < q.cooldown ∨ q.maxConcurrent ≤ q.activeCount) →
        q.enqueue clip = (false, q)) ∧
    (q.cooldown ≤ q._clock - q._lastSpawnTime → q.activeCount < q.maxConcurrent →
        q.enqueue clip =
          (true, { q with clips := q.clips ++ [(tuneClip q.visualMode clip).activate],
                          _lastSpawnTime := q._clock })) :=
  ⟨enqueue_reject q clip, enqueue_accept q clip⟩

/-- Witness for C2: a fresh queue (clock at 0) rejects, a queue whose clock
has advanced past the cooldown accepts. -/
theorem enqueue_spec_witness :
    ((ClipQueue.init 5).enqueue sampleClip).1 = false ∧
    (({ ClipQueue.init 5 with _clock := 1 }).enqueue sampleClip).1 = true := by
  constructor
  · rw [(enqueue_spec (ClipQueue.init 5) sampleClip).1
      (Or.inl (by norm_num [ClipQueue.init]))]
  · rw [(enqueue_spec { ClipQueue.init 5 with _clock := 1 } sampleClip).2
      (by norm_num [ClipQueue.init])
      (by norm_num [ClipQueue.init, ClipQueue.activeCount])]

-- ═══════════ C10 (scheduler clock helpers shared with C9) ═══════════

/-- The render loop driving `ClipQueue.update` once per tick with the
default fade delay. -/
def applyTicks (q : ClipQueue) : List ℝ → ClipQueue
  | [] => q
  | dt :: dts => applyTicks (ClipQueue.update dt false 2 q) dts

theorem queue_update_empty (dt : ℝ) (ic : Bool) (fd : ℝ) (q : ClipQueue) (h : q.clips = []) :
    ClipQueue.update dt ic fd q = { q with _clock := q._clock + dt } := by
  simp [ClipQueue.update, h]

theorem applyTicks_empty (q : ClipQueue) (h : q.clips = []) (dts : List ℝ) :
    applyTicks q dts = { q with _clock := q._clock + dts.sum } := by
  induction dts generalizing q with
  | nil => simp [applyTicks]
  | cons dt dts ih =>
    have h1 : ClipQueue.update dt false 2 q = { q with _clock := q._clock + dt } :=
      queue_update_empty dt false 2 q h
    have h2 : ({ q with _clock := q._clock + dt } : ClipQueue).clips = [] := h
    have hsum : q._clock + dt + dts.sum = q._clock + (dt :: dts).sum := by
      rw [List.sum_cons]; ring
    calc applyTicks q (dt :: dts)
        = applyTicks { q with _clock := q._clock + dt } dts := by rw [applyTicks, h1]
      _ = { q with _clock := q._clock + dt + dts.sum } := ih _ h2
      _ = { q with _clock := q._clock + (dt :: dts).sum } := by rw [hsum]

/-- C10: on a freshly constructed `ClipQueue` the clock and the last-spawn
time both start at `0`, so every `enqueue` is rejected (with no state
change) until `update` ticks have advanced the clock by at least the
`0.12 s` cooldown; once the clock has reached the cooldown, a spawn is
admitted (for a positive concurrency cap). -/
theorem fresh_queue_enqueue_gated_by_cooldown (mc : ℕ) (dts : List ℝ) (c : GestureClip) :
    (dts.sum < 0.12 →
      (applyTicks (ClipQueue.init mc) dts).enqueue c
        = (false, applyTicks (ClipQueue.init mc) dts)) ∧
    (0.12 ≤ dts.sum → 0 < mc →
      ((applyTicks (ClipQueue.init mc) dts).enqueue c).1 = true) := by
  have hq := applyTicks_empty (ClipQueue.init mc) rfl dts
  constructor
  · intro hs
    rw [hq]
    apply enqueue_reject
    left
    show (ClipQueue.init mc)._clock + dts.sum - (ClipQueue.init mc)._lastSpawnTime
      < (ClipQueue.init mc).cooldown
    simp only [ClipQueue.init]
    linarith
  · intro hs hmc
    rw [hq, enqueue_accept _ c ?_ ?_]
    · show (ClipQueue.init mc).cooldown
        ≤ (ClipQueue.init mc)._clock + dts.sum - (ClipQueue.init mc)._lastSpawnTime
      simp only [ClipQueue.init]
      linarith
    · show ClipQueue.activeCount _ < (ClipQueue.init mc).maxConcurrent
      simpa [ClipQueue.activeCount, ClipQueue.init] using hmc

/-- Witness for C10: after a single `0.05 s` tick the spawn is rejected;
after a single `0.2 s` tick it is accepted. -/
theorem fresh_queue_enqueue_gated_by_cooldown_witness :
    (applyTicks (ClipQueue.init 5) [0.05]).enqueue sampleClip
      = (false, applyTicks (ClipQueue.init 5) [0.05]) ∧
    ((applyTicks (ClipQueue.init 5) [0.2]).enqueue sampleClip).1 = true :=
  ⟨(fresh_queue_enqueue_gated_by_cooldown 5 [0.05] sampleClip).1 (by norm_num),
   (fresh_queue_enqueue_gated_by_cooldown 5 [0.2] sampleClip).2 (by norm_num) (by norm_num)⟩

-- ═══════════ C9 ═══════════

/-- A burst of `enqueue` calls with no clock advance in between; counts the
accepted calls. -/
def enqueueAll (q : ClipQueue) : List GestureClip → ℕ × ClipQueue
  | [] => (0, q)
  | c :: cs =>
    let r := q.enqueue c
    let rest := enqueueAll r.2 cs
    ((if r.1 = true then 1 else 0) + rest.1, rest.2)

theorem enqueueAll_cooldown_blocked (cs : List GestureClip) (q : ClipQueue)
    (h : q._clock - q._lastSpawnTime < q.cooldown) :
    enqueueAll q cs = (0, q) := by
  induction cs with
  | nil => rfl
  | cons c cs ih =>
    unfold enqueueAll
    rw [enqueue_reject q c (Or.inl h)]
    simp [ih]

/-- C9 (amended): six `enqueue` calls inside one cooldown window (no clock
advance between them) on an idle scheduler with cap 5 and a positive
cooldown admit exactly one call — each accepted spawn restamps the
last-spawn time, so the cooldown gate, not the concurrency cap, rejects the
other five, regardless of the order of the clips. -/
theorem six_enqueues_within_cooldown_admit_one (q : ClipQueue) (cs : List GestureClip)
    (hclips : q.clips = []) (hcap : q.maxConcurrent = 5) (hcool : 0 < q.cooldown)
    (helig : q.cooldown ≤ q._clock - q._lastSpawnTime) (hlen : cs.length = 6) :
    (enqueueAll q cs).1 = 1 := by
  cases cs with
  | nil => simp at hlen
  | cons c cs =>
    have hcount : q.activeCount < q.maxConcurrent := by
      simp [ClipQueue.activeCount, hclips, hcap]
    have hcnt : (q.enqueue c).1 = true := by
      rw [enqueue_accept q c helig hcount]
    have hspawn : (q.enqueue c).2._clock - (q.enqueue c).2._lastSpawnTime
        < (q.enqueue c).2.cooldown := by
      rw [enqueue_accept q c helig hcount]
      show q._clock - q._clock < q.cooldown
      simpa using hcool
    show (if (q.enqueue c).1 = true then 1 else 0) + (enqueueAll (q.enqueue c).2 cs).1 = 1
    rw [hcnt, enqueueAll_cooldown_blocked cs _ hspawn]
    simp

/-- The concrete scheduler used for C9's witness and counterexample: fresh
cap-5 queue whose clock has passed the initial cooldown. -/
def queueC9 : ClipQueue := { ClipQueue.init 5 with _clock := 1 }

/-- Witness for C9's amended claim at a concrete idle scheduler and six
concrete clips. -/
theorem six_enqueues_within_cooldown_admit_one_witness :
    (enqueueAll queueC9 (List.replicate 6 sampleClip)).1 = 1 :=
  six_enqueues_within_cooldown_admit_one queueC9
    (List.replicate 6 sampleClip) rfl rfl (by norm_num [queueC9, ClipQueue.init])
    (by norm_num [queueC9, ClipQueue.init]) (by simp)

/-- Counterexample to C9 as stated: six back-to-back `enqueue` calls within
one cooldown window on a cap-5 scheduler admit one call and reject five —
not five accepted and one rejected. -/
theorem six_enqueues_within_cooldown_cex :
    (enqueueAll queueC9 (List.replicate 6 sampleClip)).1 = 1 ∧
    (enqueueAll queueC9 (List.replicate 6 sampleClip)).1 ≠ 5 := by
  have helig : queueC9.cooldown ≤ queueC9._clock - queueC9._lastSpawnTime := by
    norm_num [queueC9, ClipQueue.init]
  have hcount : queueC9.activeCount < queueC9.maxConcurrent := by
    norm_num [queueC9, ClipQueue.init, ClipQueue.activeCount]
  have hcnt : (queueC9.enqueue sampleClip).1 = true := by
    rw [enqueue_accept queueC9 sampleClip helig hcount]
  have hspawn : (queueC9.enqueue sampleClip).2._clock
      - (queueC9.enqueue sampleClip).2._lastSpawnTime
      < (queueC9.enqueue sampleClip).2.cooldown := by
    rw [enqueue_accept queueC9 sampleClip helig hcount]
    show queueC9._clock - queueC9._clock < queueC9.cooldown
    norm_num [queueC9, ClipQueue.init]
  have h1 : (enqueueAll queueC9 (List.replicate 6 sampleClip)).1 = 1 := by
    show (if (queueC9.enqueue sampleClip).1 = true then 1 else 0)
      + (enqueueAll (queueC9.enqueue sampleClip).2 (List.replicate 5 sampleClip)).1 = 1
    rw [hcnt, enqueueAll_cooldown_blocked _ _ hspawn]
    simp
  exact ⟨h1, by rw [h1]; norm_num⟩

-- ═══════════ C3 ═══════════

theorem release_unbound_sustaining (c : GestureClip) (hs : c.state = ClipState.sustaining)
    (hk : c.midiNoteKey = none) : (GestureClip.release c).state = ClipState.complete := by
  simp [GestureClip.release, hs, hk]

/-- C3 (amended): after `ClipQueue.releaseAll`, every clip that was
`Sustaining` with no note-binding key is in the `Complete` state — the
code's `release()` sends clips without a MIDI binding straight to
`COMPLETE` rather than through `Releasing`. -/
theorem releaseAll_unbound_sustaining_complete (q : ClipQueue) (c : GestureClip)
    (hc : c ∈ q.clips) (hs : c.state = ClipState.sustaining) (hk : c.midiNoteKey = none) :
    releaseAllStep c ∈ (ClipQueue.releaseAll q).clips ∧
    (releaseAllStep c).state = ClipState.complete := by
  constructor
  · exact List.mem_map_of_mem _ hc
  · have hstep : releaseAllStep c = GestureClip.release c := by
      simp [releaseAllStep, GestureClip.isSustaining, hs, hk]
    rw [hstep]
    exact release_unbound_sustaining c hs hk

/-- Witness for C3's amended claim at a concrete one-clip queue. -/
theorem releaseAll_unbound_sustaining_complete_witness :
    releaseAllStep { sampleClip with state := ClipState.sustaining }
      ∈ (ClipQueue.releaseAll { ClipQueue.init 5 with
          clips := [{ sampleClip with state := ClipState.sustaining }] }).clips ∧
    (releaseAllStep { sampleClip with state := ClipState.sustaining }).state
      = ClipState.complete :=
  releaseAll_unbound_sustaining_complete _ _ (by simp) rfl rfl

/-- Counterexample to C3 as stated: a queue holding one sustaining clip with
no note binding; after `releaseAll` that clip's state is `Complete`, not
`Releasing`. -/
theorem releaseAll_unbound_sustaining_cex :
    ((ClipQueue.releaseAll { ClipQueue.init 5 with
        clips := [{ sampleClip with state := ClipState.sustaining }] }).clips.map
      fun c => c.state) = [ClipState.complete] ∧
    ClipState.complete ≠ ClipState.releasing := by
  refine ⟨?_, by simp⟩
  have h1 : releaseAllStep { sampleClip with state := ClipState.sustaining }
      = GestureClip.release { sampleClip with state := ClipState.sustaining } := by
    simp [releaseAllStep, GestureClip.isSustaining, sampleClip]
  simp [ClipQueue.releaseAll, h1,
    release_unbound_sustaining { sampleClip with state := ClipState.sustaining } rfl rfl]

-- ═══════════ C1 ═══════════

theorem release_bound_sustaining (c : GestureClip) (hs : c.state = ClipState.sustaining)
    (hk : c.midiNoteKey.isSome = true) :
    GestureClip.release c = beginRelease { c with _midiHeld := false } := by
  simp [GestureClip.release, hs, hk]

theorem updateReleasing_state (c : GestureClip) (e : ℝ) :
    (updateReleasing c e).1.state
      = if (1 : ℝ) ≤ min ((e - c._releaseStart) / c._releaseDuration) 1
        then ClipState.complete else ClipState.releasing := rfl

theorem release_complete_iff (rd x : ℝ) (hrd : 0 < rd) :
    (if (1 : ℝ) ≤ min (x / rd) 1 then ClipState.complete else ClipState.releasing)
      = (if rd ≤ x then ClipState.complete else ClipState.releasing) := by
  by_cases h : rd ≤ x
  · rw [if_pos h, if_pos (le_min ((one_le_div hrd).mpr h) le_rfl)]
  · rw [if_neg h, if_neg]
    push_neg at h
    intro hcon
    have hx : x / rd < 1 := (div_lt_one hrd).mpr h
    have hmin : min (x / rd) 1 ≤ x / rd := min_le_left _ _
    linarith

/-- C1 (amended): a note-bound clip released while `Sustaining` enters
`Releasing` with release duration `max ((1 − phaseAtReleaseStart) ×
baseDuration × 0.5, 0.15)`, hence always at least `0.15 s`; provided the
base duration is at least `0.3 s` (and the recorded phase is nonnegative,
as in every reachable sustain state) the duration is also at most
`baseDuration × 0.5`; a subsequent `update dt` reaches `Complete` exactly
when `dt` has consumed the whole release duration, and stays `Releasing`
otherwise. -/
theorem release_sustaining_bound_spec (c : GestureClip)
    (hs : c.state = ClipState.sustaining) (hk : c.midiNoteKey.isSome = true)
    (hpt : 0 ≤ c._currentPathT) (hdur : 0.3 ≤ c.duration) :
    (GestureClip.release c).state = ClipState.releasing ∧
    (GestureClip.release c)._releaseDuration
      = max ((1 - c._currentPathT) * c.duration * 0.5) 0.15 ∧
    0.15 ≤ (GestureClip.release c)._releaseDuration ∧
    (GestureClip.release c)._releaseDuration ≤ c.duration * 0.5 ∧
    (∀ dt : ℝ, ∀ ss : Bool,
      (GestureClip.update dt ss (GestureClip.release c)).state
        = if (GestureClip.release c)._releaseDuration ≤ dt
          then ClipState.complete else ClipState.releasing) := by
  have hrel := release_bound_sustaining c hs hk
  have hstate : (GestureClip.release c).state = ClipState.releasing := by
    rw [hrel]; rfl
  have hrd : (GestureClip.release c)._releaseDuration
      = max ((1 - c._currentPathT) * c.duration * 0.5) 0.15 := by
    rw [hrel]; rfl
  have h015 : (0.15 : ℝ) ≤ (GestureClip.release c)._releaseDuration := by
    rw [hrd]; exact le_max_right _ _
  have hub : (GestureClip.release c)._releaseDuration ≤ c.duration * 0.5 := by
    rw [hrd]
    apply max_le
    · nlinarith
    · linarith
  refine ⟨hstate, hrd, h015, hub, ?_⟩
  intro dt ss
  rw [update_releasing_eq dt ss _ hstate, pushPoint_state, updateReleasing_state]
  have harg : (GestureClip.release c).elapsed + dt - (GestureClip.release c)._releaseStart
      = dt := by
    rw [hrel]
    show c.elapsed + dt - c.elapsed = dt
    ring
  rw [harg]
  exact release_complete_iff _ dt (lt_of_lt_of_le (by norm_num) h015)

/-- The concrete sustaining note-bound clip used for C1's witness. -/
def clipC1 : GestureClip :=
  { sampleClip with
    state := ClipState.sustaining
    midiNoteKey := some "2:60"
    _midiHeld := true
    _currentPathT := 0.5
    elapsed := 5 }

/-- Witness for C1's amended claim: releasing the concrete clip enters
`Releasing` with duration in the stated bounds, and a `1 s` tick
(which exceeds the `0.25 s` release duration) completes it. -/
theorem release_sustaining_bound_spec_witness :
    (GestureClip.release clipC1).state = ClipState.releasing ∧
    0.15 ≤ (GestureClip.release clipC1)._releaseDuration ∧
    (GestureClip.release clipC1)._releaseDuration ≤ clipC1.duration * 0.5 ∧
    (GestureClip.update 1 false (GestureClip.release clipC1)).state = ClipState.complete := by
  have h := release_sustaining_bound_spec clipC1 rfl rfl
    (by norm_num [clipC1, sampleClip]) (by norm_num [clipC1, sampleClip])
  refine ⟨h.1, h.2.2.1, h.2.2.2.1, ?_⟩
  rw [h.2.2.2.2 1 false, if_pos]
  rw [h.2.1]
  have h1 : ((1 : ℝ) - clipC1._currentPathT) * clipC1.duration * 0.5 = 0.25 := by
    norm_num [clipC1, sampleClip]
  rw [h1]
  rw [max_eq_left (by norm_num)]
  norm_num

/-- The concrete short-duration clip refuting C1's upper bound. -/
def clipC1cex : GestureClip :=
  { sampleClip with
    state := ClipState.sustaining
    midiNoteKey := some "2:60"
    _midiHeld := true
    _currentPathT := 0.5
    duration := 0.2 }

/-- Counterexample to C1 as stated: for a sustaining note-bound clip with
base duration `0.2 s` the computed release duration is the `0.15 s` floor,
which exceeds `baseDuration × 0.5 = 0.1 s` — the claimed upper bound fails. -/
theorem release_duration_upper_bound_cex :
    (GestureClip.release clipC1cex)._releaseDuration = 0.15 ∧
    ¬ (GestureClip.release clipC1cex)._releaseDuration ≤ clipC1cex.duration * 0.5 := by
  have hrel := release_bound_sustaining clipC1cex rfl rfl
  have h1 : (GestureClip.release clipC1cex)._releaseDuration = 0.15 := by
    rw [hrel]
    show max ((1 - clipC1cex._currentPathT) * clipC1cex.duration * 0.5) 0.15 = 0.15
    have h2 : ((1 : ℝ) - clipC1cex._currentPathT) * clipC1cex.duration * 0.5 = 0.05 := by
      norm_num [clipC1cex, sampleClip]
    rw [h2, max_eq_right (by norm_num)]
  refine ⟨h1, ?_⟩
  rw [h1]
  have h3 : clipC1cex.duration = 0.2 := rfl
  rw [h3]
  norm_num

-- ═══════════ C6 ═══════════

theorem capPoints_length (l : List TracePoint) :
    (capPoints l).length = if 2000 < l.length then 1500 else l.length := by
  unfold capPoints
  split <;> rename_i h
  · rw [List.length_drop]
    omega
  · rfl

theorem pushPoint_points (t : ℝ) (c : GestureClip) :
    ∃ p : TracePoint, (pushPoint t c).points = capPoints (c.points ++ [p]) :=
  ⟨_, rfl⟩

theorem updateReleasing_points (c : GestureClip) (e : ℝ) :
    (updateReleasing c e).1.points = c.points := rfl

theorem updateSustaining_points (ss : Bool) (c : GestureClip) (e : ℝ) :
    (updateSustaining ss c e).1.points = c.points := by
  simp only [updateSustaining]
  repeat' split
  all_goals rfl

theorem updateActive_points (ss : Bool) (c : GestureClip) (e : ℝ) :
    (updateActive ss c e).1.points = c.points := by
  simp only [updateActive]
  repeat' split
  all_goals rfl

theorem update_nonterminal_points (dt : ℝ) (ss : Bool) (c : GestureClip)
    (hp : c.state ≠ ClipState.pending) (hc : c.state ≠ ClipState.complete) :
    ∃ p : TracePoint, (GestureClip.update dt ss c).points = capPoints (c.points ++ [p]) := by
  cases hstate : c.state with
  | pending => exact absurd hstate hp
  | complete => exact absurd hstate hc
  | active =>
    rw [update_active_eq dt ss c hstate]
    obtain ⟨p, hp2⟩ := pushPoint_points (updateActive ss c (c.elapsed + dt)).2
      (updateActive ss c (c.elapsed + dt)).1
    rw [updateActive_points] at hp2
    exact ⟨p, hp2⟩
  | sustaining =>
    rw [update_sustaining_eq dt ss c hstate]
    obtain ⟨p, hp2⟩ := pushPoint_points (updateSustaining ss c (c.elapsed + dt)).2
      (updateSustaining ss c (c.elapsed + dt)).1
    rw [updateSustaining_points] at hp2
    exact ⟨p, hp2⟩
  | releasing =>
    rw [update_releasing_eq dt ss c hstate]
    obtain ⟨p, hp2⟩ := pushPoint_points (updateReleasing c (c.elapsed + dt)).2
      (updateReleasing c (c.elapsed + dt)).1
    rw [updateReleasing_points] at hp2
    exact ⟨p, hp2⟩

/-- C6 (amended): one `update` never leaves more than 2000 points in the
buffer; while non-terminal and strictly below the cap the buffer grows by
exactly one point per tick (so it is non-decreasing below the cap); at the
cap the push overflows to 2001 points and only the most recent 1500 are
retained — which is a decrease, so "non-decreasing while non-terminal" holds
only below the cap. -/
theorem points_buffer_capped (c : GestureClip) (dt : ℝ) (ss : Bool)
    (hlen : c.points.length ≤ 2000) :
    (GestureClip.update dt ss c).points.length ≤ 2000 ∧
    (c.state ≠ ClipState.pending → c.state ≠ ClipState.complete → c.points.length < 2000 →
      (GestureClip.update dt ss c).points.length = c.points.length + 1) ∧
    (c.state ≠ ClipState.pending → c.state ≠ ClipState.complete → c.points.length = 2000 →
      ∃ p, (GestureClip.update dt ss c).points = (c.points ++ [p]).drop 501) := by
  by_cases hterm : c.state = ClipState.pending ∨ c.state = ClipState.complete
  · rw [update_terminal dt ss c hterm]
    refine ⟨hlen, ?_, ?_⟩ <;> intro hp hc <;> rcases hterm with h | h <;> simp_all
  · push_neg at hterm
    obtain ⟨p, hp⟩ := update_nonterminal_points dt ss c hterm.1 hterm.2
    have hl : (GestureClip.update dt ss c).points.length
        = if 2000 < c.points.length + 1 then 1500 else c.points.length + 1 := by
      rw [hp, capPoints_length, List.length_append, List.length_singleton]
    refine ⟨?_, ?_, ?_⟩
    · rw [hl]; split <;> omega
    · intro _ _ hlt
      rw [hl, if_neg (by omega)]
    · intro _ _ heq
      refine ⟨p, ?_⟩
      rw [hp]
      unfold capPoints
      rw [if_pos (by rw [List.length_append, List.length_singleton]; omega),
        List.length_append, List.length_singleton, heq]

/-- Witness for C6's amended claim: an active clip with an empty buffer gains
exactly one point in one tick and stays below the cap. -/
theorem points_buffer_capped_witness :
    (GestureClip.update 0.1 false { sampleClip with state := ClipState.active }).points.length
      ≤ 2000 ∧
    (GestureClip.update 0.1 false { sampleClip with state := ClipState.active }).points.length
      = 1 := by
  have h := points_buffer_capped { sampleClip with state := ClipState.active } 0.1 false
    (by simp [sampleClip])
  refine ⟨h.1, ?_⟩
  rw [h.2.1 (by simp [sampleClip]) (by simp [sampleClip]) (by simp [sampleClip])]
  simp [sampleClip]

/-- The concrete at-cap active clip refuting C6's monotonicity at the cap. -/
def clipC6 : GestureClip :=
  { sampleClip with
    state := ClipState.active
    points := List.replicate 2000 ⟨0, 0, 1, 0⟩ }

/-- Counterexample to C6 as stated: a non-terminal clip holding exactly 2000
points drops to 1500 points after one tick, so the buffer length is not
non-decreasing while non-terminal. -/
theorem points_buffer_not_monotone_at_cap_cex :
    clipC6.points.length = 2000 ∧
    (GestureClip.update 0.1 false clipC6).points.length = 1500 ∧
    ¬ clipC6.points.length ≤ (GestureClip.update 0.1 false clipC6).points.length := by
  have hl : clipC6.points.length = 2000 := by
    rw [show clipC6.points = List.replicate 2000 ⟨0, 0, 1, 0⟩ from rfl, List.length_replicate]
  obtain ⟨p, hp⟩ := update_nonterminal_points 0.1 false clipC6
    (by rw [show clipC6.state = ClipState.active from rfl]; simp)
    (by rw [show clipC6.state = ClipState.active from rfl]; simp)
  have hlen : (GestureClip.update 0.1 false clipC6).points.length = 1500 := by
    rw [hp, capPoints_length, List.length_append, List.length_singleton, hl]
    norm_num
  exact ⟨hl, hlen, by rw [hl, hlen]; norm_num⟩

-- ═══════════ C8 ═══════════

/-- C8: `loadGestureFromData` rejects a missing record, a record without a
path or vocabulary, and a path with fewer than two points: it returns
`false` and leaves the imported-gesture store unchanged, so hybrid path
resolution afterwards behaves exactly as if no import had been attempted
(falling back to the biomechanical path). -/
theorem loadGestureFromData_rejects_invalid (gd? : Option GestureData) (store : GestureStore)
    (h : gd? = none ∨ ∃ gd, gd? = some gd ∧
      (gd.path = none ∨ gd.vocabulary = none ∨ ∃ p, gd.path = some p ∧ p.length < 2)) :
    loadGestureFromData gd? store = (false, store) ∧
    (∀ (u : Bool) (v : String) (t : ℝ) (ctx : ClipCtx),
      hybridPath u (loadGestureFromData gd? store).2 v t ctx = hybridPath u store v t ctx) := by
  have hload : loadGestureFromData gd? store = (false, store) := by
    rcases h with h | ⟨gd, hgd, hbad⟩
    · rw [h]
      rfl
    · subst hgd
      rcases hbad with hp | hv | ⟨p, hp, hlen⟩
      · simp [loadGestureFromData, hp]
      · cases hpath : gd.path with
        | none => simp [loadGestureFromData, hpath]
        | some p => simp [loadGestureFromData, hpath, hv]
      · cases hvoc : gd.vocabulary with
        | none => simp [loadGestureFromData, hp, hvoc]
        | some v => simp [loadGestureFromData, hp, hvoc, hlen]
  exact ⟨hload, fun u v t ctx => by rw [hload]⟩

/-- A malformed import: only one path point. -/
def gestureDataShort : GestureData :=
  { name := "clip"
    vocabulary := some "whale"
    path := some [⟨0.1, 0.2, 0, 0.5⟩]
    duration := some 2 }

/-- Witness for C8 at a concrete one-point import and the empty store. -/
theorem loadGestureFromData_rejects_invalid_witness :
    loadGestureFromData (some gestureDataShort) [] = (false, []) :=
  (loadGestureFromData_rejects_invalid (some gestureDataShort) []
    (Or.inr ⟨gestureDataShort, rfl, Or.inr (Or.inr ⟨_, rfl, by simp [gestureDataShort]⟩)⟩)).1

-- ═══════════ C4 ═══════════

theorem updateActive_cases (ss : Bool) (c : GestureClip) (e : ℝ) :
    (updateActive ss c e).1.state = ClipState.sustaining ∨
    (updateActive ss c e).1.state = ClipState.complete ∨
    updateActive ss c e = ({ c with elapsed := e, progress := min (e / c.duration) 1 },
                           c.easingFn (min (e / c.duration) 1)) := by
  simp only [updateActive]
  repeat' split
  all_goals first
    | (left; rfl)
    | (right; left; rfl)
    | (right; right; rfl)

theorem updateActive_plain (ss : Bool) (c : GestureClip) (e : ℝ)
    (hk : c.midiNoteKey = none) (hlt : e / c.duration < 1) :
    updateActive ss c e = ({ c with elapsed := e, progress := min (e / c.duration) 1 },
                           c.easingFn (min (e / c.duration) 1)) := by
  unfold updateActive
  rw [hk]
  simp only [Option.isSome_none, Bool.false_eq_true, if_false]
  rw [if_neg (not_le.mpr (lt_of_le_of_lt (min_le_left _ _) hlt))]

/-- C4 (amended): across consecutive `update` calls during which a clip
remains `Active`, the reported `progress` is monotonically non-decreasing;
the eased phase `easedProgress` is monotonically non-decreasing provided
the clip's easing function is non-decreasing on `(-∞, 1]` (true of the
cubic, quad and sine easings — but not of the elastic easing, which
overshoots and oscillates). -/
theorem active_progress_eased_monotone (c : GestureClip) (dt1 dt2 : ℝ) (ss1 ss2 : Bool)
    (h0 : c.state = ClipState.active) (hdur : 0 < c.duration)
    (hdt1 : 0 < dt1) (hdt2 : 0 < dt2)
    (h1 : (GestureClip.update dt1 ss1 c).state = ClipState.active)
    (h2 : (GestureClip.update dt2 ss2 (GestureClip.update dt1 ss1 c)).state
      = ClipState.active) :
    (GestureClip.update dt1 ss1 c).progress
      ≤ (GestureClip.update dt2 ss2 (GestureClip.update dt1 ss1 c)).progress ∧
    ((∀ a b : ℝ, a ≤ b → b ≤ 1 → c.easingFn a ≤ c.easingFn b) →
      (GestureClip.update dt1 ss1 c).easedProgress
        ≤ (GestureClip.update dt2 ss2 (GestureClip.update dt1 ss1 c)).easedProgress) := by
  have hps1 := update_active_eq dt1 ss1 c h0
  have hstate1 : (updateActive ss1 c (c.elapsed + dt1)).1.state = ClipState.active := by
    rw [hps1, pushPoint_state] at h1
    exact h1
  rcases updateActive_cases ss1 c (c.elapsed + dt1) with hb | hb | hb
  · rw [hstate1] at hb; simp at hb
  · rw [hstate1] at hb; simp at hb
  · have hc1 : GestureClip.update dt1 ss1 c
        = pushPoint (c.easingFn (min ((c.elapsed + dt1) / c.duration) 1))
            { c with elapsed := c.elapsed + dt1,
                     progress := min ((c.elapsed + dt1) / c.duration) 1 } := by
      rw [hps1, hb]
    have hprog1 : (GestureClip.update dt1 ss1 c).progress
        = min ((c.elapsed + dt1) / c.duration) 1 := by rw [hc1, pushPoint_progress]
    have heased1 : (GestureClip.update dt1 ss1 c).easedProgress
        = c.easingFn (min ((c.elapsed + dt1) / c.duration) 1) := by
      rw [hc1, pushPoint_easedProgress]
    have helapsed1 : (GestureClip.update dt1 ss1 c).elapsed = c.elapsed + dt1 := by
      rw [hc1, pushPoint_elapsed]
    have hdur1 : (GestureClip.update dt1 ss1 c).duration = c.duration := by
      rw [hc1, pushPoint_duration]
    have heasing1 : (GestureClip.update dt1 ss1 c).easingFn = c.easingFn := by
      rw [hc1, pushPoint_easingFn]
    have hps2 := update_active_eq dt2 ss2 _ h1
    have hstate2 : (updateActive ss2 (GestureClip.update dt1 ss1 c)
        ((GestureClip.update dt1 ss1 c).elapsed + dt2)).1.state = ClipState.active := by
      rw [hps2, pushPoint_state] at h2
      exact h2
    rcases updateActive_cases ss2 (GestureClip.update dt1 ss1 c)
        ((GestureClip.update dt1 ss1 c).elapsed + dt2) with hb2 | hb2 | hb2
    · rw [hstate2] at hb2; simp at hb2
    · rw [hstate2] at hb2; simp at hb2
    · have hprog2 : (GestureClip.update dt2 ss2 (GestureClip.update dt1 ss1 c)).progress
          = min ((c.elapsed + dt1 + dt2) / c.duration) 1 := by
        rw [hps2, hb2, pushPoint_progress, helapsed1, hdur1]
      have heased2 : (GestureClip.update dt2 ss2 (GestureClip.update dt1 ss1 c)).easedProgress
          = c.easingFn (min ((c.elapsed + dt1 + dt2) / c.duration) 1) := by
        rw [hps2, hb2, pushPoint_easedProgress, helapsed1, hdur1, heasing1]
      have hple : min ((c.elapsed + dt1) / c.duration) 1
          ≤ min ((c.elapsed + dt1 + dt2) / c.duration) 1 :=
        min_le_min ((div_le_div_right hdur).mpr (by linarith)) le_rfl
      constructor
      · rw [hprog1, hprog2]
        exact hple
      · intro hmono
        rw [heased1, heased2]
        exact hmono _ _ hple (min_le_right _ 1)

/-- The concrete active clip with the (monotone) quad easing for
C4's witness. -/
def clipC4w : GestureClip :=
  { sampleClip with state := ClipState.active, easingFn := easeOutQuad }

/-- Witness for C4's amended claim: two ticks on a quad-eased active clip
keep both progress and eased phase non-decreasing. -/
theorem active_progress_eased_monotone_witness :
    (GestureClip.update 0.2 false clipC4w).progress
      ≤ (GestureClip.update 0.1 false (GestureClip.update 0.2 false clipC4w)).progress ∧
    (GestureClip.update 0.2 false clipC4w).easedProgress
      ≤ (GestureClip.update 0.1 false (GestureClip.update 0.2 false clipC4w)).easedProgress := by
  have hc1 : GestureClip.update 0.2 false clipC4w
      = pushPoint (clipC4w.easingFn (min ((clipC4w.elapsed + 0.2) / clipC4w.duration) 1))
          { clipC4w with elapsed := clipC4w.elapsed + 0.2,
                         progress := min ((clipC4w.elapsed + 0.2) / clipC4w.duration) 1 } := by
    rw [update_active_eq 0.2 false clipC4w rfl,
      updateActive_plain false clipC4w _ rfl (by norm_num [clipC4w, sampleClip])]
  have h1 : (GestureClip.update 0.2 false clipC4w).state = ClipState.active := by
    rw [hc1, pushPoint_state]
    rfl
  have hk1 : (GestureClip.update 0.2 false clipC4w).midiNoteKey = none := by
    rw [hc1, pushPoint_midiNoteKey]
    rfl
  have he1 : (GestureClip.update 0.2 false clipC4w).elapsed = clipC4w.elapsed + 0.2 := by
    rw [hc1, pushPoint_elapsed]
  have hd1 : (GestureClip.update 0.2 false clipC4w).duration = clipC4w.duration := by
    rw [hc1, pushPoint_duration]
  have h2 : (GestureClip.update 0.1 false (GestureClip.update 0.2 false clipC4w)).state
      = ClipState.active := by
    rw [update_active_eq 0.1 false _ h1,
      updateActive_plain false _ _ hk1 (by rw [he1, hd1]; norm_num [clipC4w, sampleClip]),
      pushPoint_state]
    exact h1
  have h := active_progress_eased_monotone clipC4w 0.2 0.1 false false rfl
    (by norm_num [clipC4w, sampleClip]) (by norm_num) (by norm_num) h1 h2
  refine ⟨h.1, h.2 ?_⟩
  intro a b hab hb1
  show easeOutQuad a ≤ easeOutQuad b
  unfold easeOutQuad
  nlinarith

theorem easeOutElastic_at_02 : easeOutElastic 0.2 = 1.25 := by
  unfold easeOutElastic
  rw [if_neg (by norm_num)]
  have h1 : ((0.2 : ℝ) - 0.1) * (2 * π) / 0.4 = π / 2 := by ring
  rw [h1, Real.sin_pi_div_two]
  have h2 : (-10 : ℝ) * 0.2 = ((-2 : ℤ) : ℝ) := by norm_num
  rw [h2, Real.rpow_intCast]
  norm_num

theorem easeOutElastic_at_03 : easeOutElastic 0.3 = 1 := by
  unfold easeOutElastic
  rw [if_neg (by norm_num)]
  have h1 : ((0.3 : ℝ) - 0.1) * (2 * π) / 0.4 = π := by ring
  rw [h1, Real.sin_pi]
  ring

/-- The concrete active clip with the elastic easing refuting C4. -/
def clipC4cex : GestureClip :=
  { sampleClip with state := ClipState.active, easingFn := easeOutElastic }

/-- Counterexample to C4 as stated: an elastic-eased clip stays `Active`
over two ticks while its eased phase falls from `1.25` to `1` — the eased
phase fed to the motion source is not monotonically non-decreasing. -/
theorem eased_phase_not_monotone_cex :
    (GestureClip.update 0.2 false clipC4cex).state = ClipState.active ∧
    (GestureClip.update 0.1 false (GestureClip.update 0.2 false clipC4cex)).state
      = ClipState.active ∧
    (GestureClip.update 0.2 false clipC4cex).easedProgress = 1.25 ∧
    (GestureClip.update 0.1 false (GestureClip.update 0.2 false clipC4cex)).easedProgress = 1 ∧
    ¬ (GestureClip.update 0.2 false clipC4cex).easedProgress
        ≤ (GestureClip.update 0.1 false (GestureClip.update 0.2 false clipC4cex)).easedProgress := by
  have harg1 : min ((clipC4cex.elapsed + 0.2) / clipC4cex.duration) 1 = 0.2 := by
    have hv : (clipC4cex.elapsed + 0.2) / clipC4cex.duration = 0.2 := by
      norm_num [clipC4cex, sampleClip]
    rw [hv]
    exact min_eq_left (by norm_num)
  have hc1 : GestureClip.update 0.2 false clipC4cex
      = pushPoint (clipC4cex.easingFn (min ((clipC4cex.elapsed + 0.2) / clipC4cex.duration) 1))
          { clipC4cex with elapsed := clipC4cex.elapsed + 0.2,
                           progress := min ((clipC4cex.elapsed + 0.2) / clipC4cex.duration) 1 } := by
    rw [update_active_eq 0.2 false clipC4cex rfl,
      updateActive_plain false clipC4cex _ rfl (by norm_num [clipC4cex, sampleClip])]
  have h1 : (GestureClip.update 0.2 false clipC4cex).state = ClipState.active := by
    rw [hc1, pushPoint_state]
    rfl
  have hk1 : (GestureClip.update 0.2 false clipC4cex).midiNoteKey = none := by
    rw [hc1, pushPoint_midiNoteKey]
    rfl
  have he1 : (GestureClip.update 0.2 false clipC4cex).elapsed = clipC4cex.elapsed + 0.2 := by
    rw [hc1, pushPoint_elapsed]
  have hd1 : (GestureClip.update 0.2 false clipC4cex).duration = clipC4cex.duration := by
    rw [hc1, pushPoint_duration]
  have hf1 : (GestureClip.update 0.2 false clipC4cex).easingFn = clipC4cex.easingFn := by
    rw [hc1, pushPoint_easingFn]
  have heased1 : (GestureClip.update 0.2 false clipC4cex).easedProgress = 1.25 := by
    rw [hc1, pushPoint_easedProgress, harg1]
    show easeOutElastic 0.2 = 1.25
    exact easeOutElastic_at_02
  have harg2 : min (((GestureClip.update 0.2 false clipC4cex).elapsed + 0.1)
      / (GestureClip.update 0.2 false clipC4cex).duration) 1 = 0.3 := by
    rw [he1, hd1]
    have hv : (clipC4cex.elapsed + 0.2 + 0.1) / clipC4cex.duration = 0.3 := by
      norm_num [clipC4cex, sampleClip]
    rw [hv]
    exact min_eq_left (by norm_num)
  have hc2 : GestureClip.update 0.1 false (GestureClip.update 0.2 false clipC4cex)
      = pushPoint ((GestureClip.update 0.2 false clipC4cex).easingFn
            (min (((GestureClip.update 0.2 false clipC4cex).elapsed + 0.1)
              / (GestureClip.update 0.2 false clipC4cex).duration) 1))
          { (GestureClip.update 0.2 false clipC4cex) with
              elapsed := (GestureClip.update 0.2 false clipC4cex).elapsed + 0.1,
              progress := min (((GestureClip.update 0.2 false clipC4cex).elapsed + 0.1)
                / (GestureClip.update 0.2 false clipC4cex).duration) 1 } := by
    rw [update_active_eq 0.1 false _ h1,
      updateActive_plain false _ _ hk1 (by rw [he1, hd1]; norm_num [clipC4cex, sampleClip])]
  have h2 : (GestureClip.update 0.1 false (GestureClip.update 0.2 false clipC4cex)).state
      = ClipState.active := by
    rw [hc2, pushPoint_state]
    exact h1
  have heased2 : (GestureClip.update 0.1 false
      (GestureClip.update 0.2 false clipC4cex)).easedProgress = 1 := by
    rw [hc2, pushPoint_easedProgress, harg2, hf1]
    show easeOutElastic 0.3 = 1
    exact easeOutElastic_at_03
  refine ⟨h1, h2, heased1, heased2, ?_⟩
  rw [heased1, heased2]
  norm_num

end

end KineticNotation
